import Mathlib

/-!
Verification development for the PCDdebugger repository.

The repository consists of two near-duplicate Python scripts,
`pcddebugger.py` and `saasdebugger.py`, that run external commands
(`kubectl`, `openstack`), capture their output and write it into a
directory tree.  This file gives a shallow embedding of both scripts and
proves properties of the embedding.

Modelling conventions:

* Python/JSON dynamic values are modelled by the inductive type `Json`
  (Python `None` appears both as the JSON literal `Json.null` and, where a
  Python expression may be `None` or absent, as `Option Json` with
  `Option.none` playing the role of `None`).
* The external world (the subprocess layer, the environment variables, the
  `json` library) is a record `World`: `World.run` maps an argument vector
  to the exit code / stdout / stderr of the spawned process, `World.envVar`
  models `os.environ.get`, `World.jsonParse` models `json.loads` (with
  `Option.none` modelling a raised `JSONDecodeError`) and `World.jsonDumps`
  models `json.dumps`.  `World.now` models the wall-clock timestamp used in
  the summary file.  The model assumes every spawned executable exists, so
  each invocation produces an exit code (the scripts never guard against a
  missing binary).
* Filesystem paths are modelled as lists of path components; the scripts
  only ever build paths by interpolating components between slashes, so
  `os.path.dirname` corresponds to `List.dropLast`.
* The observable effects of a run are collected in a `Trace`: the sequence
  of executed argument vectors, the filesystem, and the warning/error lines
  printed (informational prints that no claim reasons about are modelled
  with fixed text where Python interpolates a value).
* A Python function that may raise an uncaught exception is modelled with
  `Except`: `PErr.exc` is an uncaught exception (CPython terminates with
  exit status 1), `PErr.exit` is `sys.exit`.  `except Exception` blocks
  catch `PErr.exc` only, matching Python (`SystemExit` is not an
  `Exception`).
* JSON objects produced by `json.loads` have unique keys, so dictionary
  lookup is modelled as the first match in the association list.
-/

/-- The whitespace characters removed by Python `str.strip()`. -/
def isPyWhitespace (c : Char) : Bool :=
  c == ' ' || c == '\t' || c == '\n' || c == '\r' || c == '\x0b' || c == '\x0c'

/-- Python `str.strip()`: remove leading and trailing whitespace. -/
def pyStrip (s : String) : String :=
  String.mk (((s.data.dropWhile isPyWhitespace).reverse.dropWhile
    isPyWhitespace).reverse)

/-- ASCII lower-casing of one character (the pod names and filter strings
the scripts compare are ASCII). -/
def lowerChar (c : Char) : Char :=
  if 'A' ≤ c && c ≤ 'Z' then Char.ofNat (c.toNat + 32) else c

/-- Python `str.lower()` on ASCII text. -/
def pyLower (s : String) : String :=
  String.mk (s.data.map lowerChar)

/-- Dynamic JSON/Python values flowing through the scripts. -/
inductive Json where
  | str : String → Json
  | num : Int → Json
  | bool : Bool → Json
  | null : Json
  | arr : List Json → Json
  | obj : List (String × Json) → Json

/-- Dictionary lookup, `d.get(k)`: the value at the first matching key. -/
def jget (kvs : List (String × Json)) (k : String) : Option Json :=
  (kvs.find? (fun p => p.1 == k)).map (fun p => p.2)

/-- Python subscription `d[k]`: `KeyError` on a missing key, `TypeError`
on a non-dictionary. -/
def jindexE : Json → String → Except String Json
  | .obj kvs, k =>
    match jget kvs k with
    | some v => Except.ok v
    | none => Except.error ("KeyError: " ++ k)
  | _, _ => Except.error "TypeError: value is not subscriptable by a string"

/-- Python attribute use `d.get`: `AttributeError` on a non-dictionary. -/
def asObjE : Json → Except String (List (String × Json))
  | .obj kvs => Except.ok kvs
  | _ => Except.error "AttributeError: value has no attribute get"

/-- A value interpolated into an argument vector must be a string
(otherwise the scripts raise `TypeError` when joining the command). -/
def asStrE : Json → Except String String
  | .str s => Except.ok s
  | _ => Except.error "TypeError: expected str"

/-- `asStrE` lifted over an optional value. -/
def asStrOE : Option Json → Except String String
  | some (.str s) => Except.ok s
  | _ => Except.error "TypeError: expected str"

/-- Python iteration over a JSON value: lists yield their elements,
dictionaries their keys, strings their characters; other values raise
`TypeError`. -/
def jiter : Json → Except String (List Json)
  | .arr l => Except.ok l
  | .obj kvs => Except.ok (kvs.map (fun p => Json.str p.1))
  | .str s => Except.ok (s.data.map (fun c => Json.str (String.singleton c)))
  | _ => Except.error "TypeError: value is not iterable"

/-- Python truthiness of a JSON value. -/
def jtruthy : Json → Bool
  | .str s => !s.data.isEmpty
  | .num n => n != 0
  | .bool b => b
  | .null => false
  | .arr l => !l.isEmpty
  | .obj kvs => !kvs.isEmpty

/-- Python truthiness where the value may be `None`. -/
def jtruthyO : Option Json → Bool
  | none => false
  | some j => jtruthy j

/-- Truthiness of `os.environ.get(var)`. -/
def envTruthy : Option String → Bool
  | none => false
  | some s => !s.data.isEmpty

/-- Truthiness of an optional command line argument
(`argparse` stores `None` for an absent flag). -/
def argTruthy : Option String → Bool
  | none => false
  | some s => !s.data.isEmpty

/-- Characters accepted by the character class of the regular expression
`([a-f0-9\-]{36})` in `extract_id`. -/
def isUuidChar (c : Char) : Bool :=
  ('a' ≤ c && c ≤ 'f') || ('0' ≤ c && c ≤ '9') || c == '-'

/-- One attempt of the regex `\(([a-f0-9\-]{36})\)` at the start of the
character list: an opening parenthesis, exactly 36 class characters, a
closing parenthesis. -/
def matchParenAt : List Char → Option (List Char)
  | [] => none
  | c :: rest =>
    if c == '(' && (rest.take 36).length == 36 && (rest.take 36).all isUuidChar
        && ((rest.drop 36).head? == some ')')
    then some (rest.take 36)
    else none

/-- `re.search` of `\(([a-f0-9\-]{36})\)`: the leftmost occurrence wins. -/
def searchParen : List Char → Option (List Char)
  | [] => none
  | c :: rest =>
    match matchParenAt (c :: rest) with
    | some m => some m
    | none => searchParen rest

/-- `extract_id(raw)` (identical in `pcddebugger.py` and
`saasdebugger.py`): a dictionary yields its `id` entry, a string yields
the first embedded `(uuid)` group or else the stripped string, anything
else (including `None`) yields `None`. -/
def extract_id : Option Json → Option Json
  | some (.obj kvs) => jget kvs "id"
  | some (.str s) =>
    match searchParen s.data with
    | some m => some (Json.str (String.mk m))
    | none => some (Json.str (pyStrip s))
  | _ => none

/-- Substring search helper: does the needle occur as a prefix of some
suffix of the haystack? -/
def containsSubAux (needle : List Char) : List Char → Bool
  | [] => needle.isPrefixOf ([] : List Char)
  | c :: rest => needle.isPrefixOf (c :: rest) || containsSubAux needle rest

/-- The Python substring test `needle in hay`. -/
def strContains (hay needle : String) : Bool :=
  containsSubAux needle.data hay.data

/-- Result of a completed external process. -/
structure CmdResult where
  exitCode : Nat
  stdout : String
  stderr : String

/-- The ambient environment of a run: subprocesses, environment
variables, the local kubeconfig file, the `json` library and the clock. -/
structure World where
  kubeconfigExists : Bool
  envVar : String → Option String
  run : List String → CmdResult
  jsonParse : String → Option Json
  jsonDumps : Json → String
  now : String

/-- `run_cmd(cmd)` (identical in both scripts): run the process; on exit
status zero return the stripped stdout, on a non-zero exit status
(`subprocess.CalledProcessError`) return the sentinel string
`"ERROR: "` followed by the stripped stderr.  The function is total: the
`except` clause turns the failure into an ordinary string. -/
def runCmd (w : World) (cmd : List String) : String :=
  let r := w.run cmd
  if r.exitCode = 0 then pyStrip r.stdout else "ERROR: " ++ pyStrip r.stderr

/-- A directory tree: the set of created directories and the map from
file paths to their contents (most recent write first). -/
structure FS where
  dirs : List (List String)
  files : List (List String × String)

/-- Create a directory if it is not already present. -/
def insertDir (ds : List (List String)) (d : List String) : List (List String) :=
  if d ∈ ds then ds else d :: ds

/-- `os.makedirs(d, exist_ok=True)`: create the directory and every
ancestor. -/
def mkdirs (ds : List (List String)) (d : List String) : List (List String) :=
  d.inits.foldl insertDir ds

/-- `save_text(text, path)` (identical in both scripts): create the
missing parent directories of `path` and write `text` to `path`,
overwriting any existing file. -/
def save_text (fs : FS) (text : String) (path : List String) : FS :=
  { dirs := mkdirs fs.dirs path.dropLast
    files := (path, text) :: fs.files.filter (fun q => !(q.1 == path)) }

/-- Observation of the tree: the current content of a file, if any. -/
def readFile (fs : FS) (path : List String) : Option String :=
  ((fs.files.find? (fun q => q.1 == path)).map (fun q => q.2))

/-- The observable effects of a (partial) run: executed argument vectors
in order, the directory tree, and the printed diagnostic lines. -/
structure Trace where
  cmds : List (List String)
  fs : FS
  logs : List String

/-- The empty starting trace. -/
def Trace.empty : Trace :=
  { cmds := [], fs := { dirs := [], files := [] }, logs := [] }

/-- How a Python frame can unwind: `sys.exit(code)` or an uncaught
exception. -/
inductive PErr where
  | exit : Nat → PErr
  | exc : String → PErr

/-- Run an external command inside a trace. -/
def runT (w : World) (cmd : List String) (t : Trace) : String × Trace :=
  (runCmd w cmd, { t with cmds := t.cmds ++ [cmd] })

/-- Write a file inside a trace. -/
def saveT (text : String) (path : List String) (t : Trace) : Trace :=
  { t with fs := save_text t.fs text path }

/-- Print a diagnostic line inside a trace. -/
def logT (msg : String) (t : Trace) : Trace :=
  { t with logs := t.logs ++ [msg] }

/-- `os.makedirs` inside a trace. -/
def mkdirT (d : List String) (t : Trace) : Trace :=
  { t with fs := { t.fs with dirs := mkdirs t.fs.dirs d } }

/-- Turn a raised library-level error into an uncaught exception carrying
the trace at the raise point. -/
def liftE (t : Trace) : Except String α → Except (PErr × Trace) α
  | .error e => Except.error (PErr.exc e, t)
  | .ok a => Except.ok a

/-- `json.loads`, raising `JSONDecodeError` on failure. -/
def jloadsE (w : World) (s : String) : Except String Json :=
  match w.jsonParse s with
  | some v => Except.ok v
  | none => Except.error "JSONDecodeError"

/-- The process exit status determined by how the toplevel call ends:
normal completion exits 0, `sys.exit(n)` exits `n`, an uncaught exception
makes CPython exit 1. -/
def exitCode : Except (PErr × Trace) Trace → Nat
  | .ok _ => 0
  | .error (.exit n, _) => n
  | .error (.exc _, _) => 1

/-- The trace accumulated up to the end of the run, however it ended. -/
def traceOf : Except (PErr × Trace) Trace → Trace
  | .ok t => t
  | .error (_, t) => t

/-! ### Properties of the regular-expression search in `extract_id` -/

/-- A string together with a parse position where the pattern
`\(([a-f0-9\-]{36})\)` occurs. -/
def hasUuidPattern (cs : List Char) : Prop :=
  ∃ pre mid post, cs = pre ++ '(' :: (mid ++ ')' :: post) ∧
    mid.length = 36 ∧ ∀ c ∈ mid, isUuidChar c

lemma matchParenAt_hit (mid post : List Char) (hlen : mid.length = 36)
    (hall : ∀ c ∈ mid, isUuidChar c) :
    matchParenAt ('(' :: (mid ++ ')' :: post)) = some mid := by
  have htake : (mid ++ ')' :: post).take 36 = mid := by
    rw [← hlen]; exact List.take_left ..
  have hdrop : (mid ++ ')' :: post).drop 36 = ')' :: post := by
    rw [← hlen]; exact List.drop_left ..
  simp [matchParenAt, htake, hdrop, hlen, List.all_eq_true.mpr hall]

lemma matchParenAt_miss (c : Char) (rest : List Char) (hc : c ≠ '(') :
    matchParenAt (c :: rest) = none := by
  simp [matchParenAt, hc]

lemma matchParenAt_inv {c : Char} {rest m : List Char}
    (h : matchParenAt (c :: rest) = some m) :
    c = '(' ∧ m = rest.take 36 ∧ m.length = 36 ∧ (∀ x ∈ m, isUuidChar x) ∧
      (rest.drop 36).head? = some ')' := by
  by_cases hcond : (c == '(' && (rest.take 36).length == 36 &&
      (rest.take 36).all isUuidChar && ((rest.drop 36).head? == some ')')) = true
  · have hm : m = rest.take 36 := by
      rw [matchParenAt, if_pos hcond] at h
      exact (Option.some.injEq .. ▸ h).symm
    simp only [Bool.and_eq_true, beq_iff_eq, List.all_eq_true] at hcond
    exact ⟨hcond.1.1.1, hm, hm ▸ hcond.1.1.2, hm ▸ hcond.1.2, hcond.2⟩
  · rw [matchParenAt, if_neg hcond] at h
    cases h

lemma searchParen_eq (pre mid post : List Char) (hpre : '(' ∉ pre)
    (hlen : mid.length = 36) (hall : ∀ c ∈ mid, isUuidChar c) :
    searchParen (pre ++ '(' :: (mid ++ ')' :: post)) = some mid := by
  induction pre with
  | nil =>
    rw [List.nil_append, searchParen, matchParenAt_hit mid post hlen hall]
  | cons c pre ih =>
    have hc : c ≠ '(' := fun h => hpre (h ▸ List.mem_cons_self c pre)
    have hrec := ih (fun h => hpre (List.mem_cons_of_mem c h))
    rw [List.cons_append, searchParen, matchParenAt_miss c _ hc, hrec]

lemma searchParen_isSome (pre mid post : List Char)
    (hlen : mid.length = 36) (hall : ∀ c ∈ mid, isUuidChar c) :
    (searchParen (pre ++ '(' :: (mid ++ ')' :: post))).isSome = true := by
  induction pre with
  | nil =>
    rw [List.nil_append, searchParen, matchParenAt_hit mid post hlen hall]
    rfl
  | cons c pre ih =>
    rw [List.cons_append, searchParen]
    cases hm : matchParenAt (c :: (pre ++ '(' :: (mid ++ ')' :: post))) with
    | some m => rfl
    | none => exact ih

lemma searchParen_some_pattern {cs m : List Char}
    (h : searchParen cs = some m) : hasUuidPattern cs := by
  induction cs with
  | nil => cases h
  | cons c rest ih =>
    rw [searchParen] at h
    cases hm : matchParenAt (c :: rest) with
    | some m2 =>
      obtain ⟨hc, hmtake, hmlen, hmall, hhead⟩ := matchParenAt_inv hm
      cases hd : rest.drop 36 with
      | nil => rw [hd] at hhead; cases hhead
      | cons a tail =>
        have ha : a = ')' := by rw [hd] at hhead; exact Option.some.inj hhead
        refine ⟨[], m2, tail, ?_, hmlen, hmall⟩
        have hrest : rest = m2 ++ ')' :: tail := by
          conv_lhs => rw [← List.take_append_drop 36 rest]
          rw [hd, ha, ← hmtake]
        rw [List.nil_append, hc, hrest]
    | none =>
      rw [hm] at h
      obtain ⟨pre, mid, post, hdec, hlen, hall⟩ := ih h
      exact ⟨c :: pre, mid, post, by rw [hdec, List.cons_append], hlen, hall⟩

lemma hasUuidPattern_iff (cs : List Char) :
    hasUuidPattern cs ↔ (searchParen cs).isSome = true := by
  constructor
  · rintro ⟨pre, mid, post, rfl, hlen, hall⟩
    exact searchParen_isSome pre mid post hlen hall
  · intro h
    cases hs : searchParen cs with
    | none => rw [hs] at h; cases h
    | some m => exact searchParen_some_pattern hs

/-! ### Claim theorems about the shared helpers -/

/-- C1: whenever the spawned process exits non-zero, `run_cmd` returns a
string that is the sentinel `"ERROR: "` followed by the captured
(stripped) standard error — in particular it is sentinel-prefixed and
embeds the stderr text — and, being a total function in this model, it
raises no uncaught exception to the caller. -/
theorem runCmd_error_sentinel (w : World) (cmd : List String)
    (h : (w.run cmd).exitCode ≠ 0) :
    runCmd w cmd = "ERROR: " ++ pyStrip (w.run cmd).stderr ∧
    (∃ rest, runCmd w cmd = "ERROR: " ++ rest) ∧
    (∃ pre post, runCmd w cmd = pre ++ (pyStrip (w.run cmd).stderr ++ post)) := by
  have base : runCmd w cmd = "ERROR: " ++ pyStrip (w.run cmd).stderr := by
    rw [runCmd]; exact if_neg h
  refine ⟨base, ⟨pyStrip (w.run cmd).stderr, base⟩, ⟨"ERROR: ", "", ?_⟩⟩
  rw [base]
  cases hs : pyStrip (w.run cmd).stderr with
  | mk l => exact congrArg ("ERROR: " ++ ·) (congrArg String.mk (List.append_nil l)).symm

/-- A concrete failing world for the C1 witness: every command exits 2
with stderr text boom. -/
def wBoom : World :=
  { kubeconfigExists := true, envVar := fun _ => none,
    run := fun _ => { exitCode := 2, stdout := "ignored", stderr := "boom" },
    jsonParse := fun _ => none, jsonDumps := fun _ => "", now := "t" }

theorem runCmd_error_sentinel_witness :
    (wBoom.run ["openstack", "token", "issue"]).exitCode ≠ 0 ∧
    runCmd wBoom ["openstack", "token", "issue"] = "ERROR: boom" ∧
    strContains (runCmd wBoom ["openstack", "token", "issue"]) "boom" = true := by
  have h := runCmd_error_sentinel wBoom ["openstack", "token", "issue"] (by decide)
  refine ⟨by decide, h.1.trans (by decide), ?_⟩
  rw [h.1]; decide

/-- C2: on a display string of the form name `(uuid)` whose parenthesized
part consists of exactly 36 characters of the regex class (the UUID), and
whose name part contains no opening parenthesis of its own, `extract_id`
returns exactly the 36-character UUID substring. -/
theorem extract_id_uuid_display (name uuid : String)
    (hname : '(' ∉ name.data) (hlen : uuid.data.length = 36)
    (hall : ∀ c ∈ uuid.data, isUuidChar c) :
    extract_id (some (Json.str (name ++ " (" ++ uuid ++ ")"))) =
      some (Json.str uuid) := by
  have hdata : (name ++ " (" ++ uuid ++ ")").data =
      (name.data ++ [' ']) ++ '(' :: (uuid.data ++ ')' :: []) := by
    simp [String.data_append]
  have hpre : '(' ∉ name.data ++ [' '] := by
    intro h
    rcases List.mem_append.mp h with h | h
    · exact hname h
    · simp at h
  have hs : searchParen (name ++ " (" ++ uuid ++ ")").data = some uuid.data := by
    rw [hdata]; exact searchParen_eq _ _ _ hpre hlen hall
  show (match searchParen (name ++ " (" ++ uuid ++ ")").data with
    | some m => some (Json.str (String.mk m))
    | none => some (Json.str (pyStrip (name ++ " (" ++ uuid ++ ")")))) =
      some (Json.str uuid)
  rw [hs]

theorem extract_id_uuid_display_witness :
    extract_id (some (Json.str
        ("cirros" ++ " (" ++ "11111111-1111-1111-1111-111111111111" ++ ")"))) =
      some (Json.str "11111111-1111-1111-1111-111111111111") :=
  extract_id_uuid_display "cirros" "11111111-1111-1111-1111-111111111111"
    (by decide) (by decide) (by decide)

/-- C3: on a string containing no embedded `(uuid)` pattern, `extract_id`
returns the input stripped of leading and trailing whitespace and changed
in no other way. -/
theorem extract_id_no_uuid_trims (s : String) (h : ¬ hasUuidPattern s.data) :
    extract_id (some (Json.str s)) = some (Json.str (pyStrip s)) := by
  have hs : searchParen s.data = none := by
    cases hsp : searchParen s.data with
    | none => rfl
    | some m =>
      exact absurd ((hasUuidPattern_iff _).mpr (by rw [hsp]; rfl)) h
  show (match searchParen s.data with
    | some m => some (Json.str (String.mk m))
    | none => some (Json.str (pyStrip s))) = some (Json.str (pyStrip s))
  rw [hs]

theorem extract_id_no_uuid_trims_witness :
    extract_id (some (Json.str "  my-vm  ")) = some (Json.str "my-vm") := by
  have h := extract_id_no_uuid_trims "  my-vm  "
    (fun hp => absurd ((hasUuidPattern_iff _).mp hp) (by decide))
  rw [h]
  have : pyStrip "  my-vm  " = "my-vm" := by decide
  rw [this]

/-! ### Claim theorem for the artifact store -/

lemma insertDir_of_mem {ds : List (List String)} {d : List String}
    (h : d ∈ ds) : insertDir ds d = ds := by
  simp [insertDir, h]

lemma mem_insertDir_self (ds : List (List String)) (d : List String) :
    d ∈ insertDir ds d := by
  by_cases h : d ∈ ds <;> simp [insertDir, h]

lemma mem_insertDir_of_mem {ds : List (List String)} {x : List String}
    (d : List String) (h : x ∈ ds) : x ∈ insertDir ds d := by
  by_cases hd : d ∈ ds <;> simp [insertDir, hd, h]

lemma mem_foldl_insertDir_of_mem {x : List String} {ds : List (List String)}
    (l : List (List String)) (h : x ∈ ds) : x ∈ l.foldl insertDir ds := by
  induction l generalizing ds with
  | nil => exact h
  | cons a l ih => exact ih (mem_insertDir_of_mem a h)

lemma mem_foldl_insertDir {x : List String} {l ds : List (List String)}
    (h : x ∈ l) : x ∈ l.foldl insertDir ds := by
  induction l generalizing ds with
  | nil => cases h
  | cons a l ih =>
    rcases List.mem_cons.mp h with rfl | hx
    · exact mem_foldl_insertDir_of_mem l (mem_insertDir_self ds x)
    · exact ih hx

lemma foldl_insertDir_of_subset {l ds : List (List String)}
    (h : ∀ x ∈ l, x ∈ ds) : l.foldl insertDir ds = ds := by
  induction l with
  | nil => rfl
  | cons a l ih =>
    rw [List.foldl_cons, insertDir_of_mem (h a (List.mem_cons_self a l))]
    exact ih (fun x hx => h x (List.mem_cons_of_mem a hx))

lemma mkdirs_idem (ds : List (List String)) (d : List String) :
    mkdirs (mkdirs ds d) d = mkdirs ds d :=
  foldl_insertDir_of_subset (fun _ hx => mem_foldl_insertDir hx)

lemma filter_filter_self {α : Type} (f : α → Bool) (l : List α) :
    (l.filter f).filter f = l.filter f := by
  induction l with
  | nil => rfl
  | cons a l ih => by_cases h : f a <;> simp [List.filter_cons, h, ih]

/-- C9: artifact writing is idempotent — writing the same content to the
same path twice produces the very same directory tree as writing it once;
the write creates every missing parent directory and overwrites any
existing file with the given content. -/
theorem save_text_idempotent (fs : FS) (text : String) (path : List String) :
    save_text (save_text fs text path) text path = save_text fs text path ∧
    readFile (save_text fs text path) path = some text ∧
    (∀ d, d <+: path.dropLast → d ∈ (save_text fs text path).dirs) := by
  refine ⟨?_, ?_, ?_⟩
  · show FS.mk _ _ = FS.mk _ _
    congr 1
    · exact mkdirs_idem fs.dirs path.dropLast
    · show (path, text) ::
          ((path, text) :: fs.files.filter (fun q => !(q.1 == path))).filter
            (fun q => !(q.1 == path)) =
          (path, text) :: fs.files.filter (fun q => !(q.1 == path))
      rw [List.filter_cons]
      simp only [beq_self_eq_true, Bool.not_true, if_neg (by decide : ¬ false = true)]
      rw [filter_filter_self]
  · show (((( path, text) :: fs.files.filter (fun q => !(q.1 == path))).find?
        (fun q => q.1 == path)).map (fun q => q.2)) = some text
    rw [List.find?_cons_of_pos _ (by simp)]
    rfl
  · intro d hd
    exact mem_foldl_insertDir ((List.mem_inits d path.dropLast).mpr hd)

theorem save_text_idempotent_witness :
    save_text (save_text { dirs := [], files := [] } "hello" ["out", "logs", "a.log"])
        "hello" ["out", "logs", "a.log"] =
      save_text { dirs := [], files := [] } "hello" ["out", "logs", "a.log"] ∧
    readFile (save_text { dirs := [], files := [] } "hello" ["out", "logs", "a.log"])
        ["out", "logs", "a.log"] = some "hello" ∧
    ["out"] ∈ (save_text { dirs := [], files := [] } "hello"
        ["out", "logs", "a.log"]).dirs := by
  have h := save_text_idempotent { dirs := [], files := [] } "hello"
    ["out", "logs", "a.log"]
  exact ⟨h.1, h.2.1, h.2.2 ["out"] (by decide)⟩

/-! ### The collectors of `pcddebugger.py` -/

/-- Catch of a Python `except Exception` handler around a block: an
uncaught exception is replaced by the handler's effect on the trace at
the raise point; `SystemExit` (never raised inside the blocks below)
would propagate, as in Python. -/
def catchExc (r : Except (PErr × Trace) Trace) (handle : Trace → Trace) :
    Except (PErr × Trace) Trace :=
  match r with
  | Except.ok t => Except.ok t
  | Except.error (PErr.exc _, t) => Except.ok (handle t)
  | Except.error (PErr.exit n, t) => Except.error (PErr.exit n, t)

/-- `check_prerequisites(namespace)`: kubeconfig file, cluster context,
namespace reachability; any failure is `exit(1)`. -/
def check_prerequisites (w : World) (ns : String) (t : Trace) :
    Except (PErr × Trace) Trace :=
  let t := logT "[INFO] Checking prerequisites..." t
  if !w.kubeconfigExists then
    Except.error (PErr.exit 1, logT "[ERROR] Kubeconfig not found." t)
  else
    let (r1, t) := runT w ["kubectl", "config", "current-context"] t
    if strContains r1 "ERROR" then
      Except.error (PErr.exit 1,
        logT "[ERROR] Unable to access Kubernetes context." t)
    else
      let (r2, t) := runT w ["kubectl", "get", "ns", ns] t
      if strContains r2 "NotFound" || strContains r2 "Error" ||
          strContains r2 "ERROR" then
        Except.error (PErr.exit 1, logT "[ERROR] Namespace is not accessible." t)
      else
        Except.ok (logT "[OK] Prerequisites met." t)

/-- `check_openstack_auth()` of `pcddebugger.py`. -/
def check_openstack_auth (w : World) (t : Trace) : Except (PErr × Trace) Trace :=
  let t := logT "[INFO] Checking OpenStack authentication..." t
  let (r, t) := runT w ["openstack", "token", "issue"] t
  if strContains r "ERROR" || strContains r "Missing" then
    Except.error (PErr.exit 1,
      logT "[ERROR] OpenStack CLI is not authenticated." t)
  else
    Except.ok (logT "[OK] OpenStack authentication validated." t)

/-- `collect_health_checks()` of `pcddebugger.py` (the dictionary of
commands is iterated in insertion order). -/
def collect_health_checks (w : World) (out : String) (t : Trace) : Trace :=
  let t := mkdirT [out, "health"] t
  let (o1, t) := runT w ["openstack", "compute", "service", "list"] t
  let t := saveT o1 [out, "health", "compute_services.txt"] t
  let (o2, t) := runT w ["openstack", "resource", "provider", "list"] t
  let t := saveT o2 [out, "health", "resource_providers.txt"] t
  let (o3, t) := runT w ["openstack", "network", "agent", "list"] t
  let t := saveT o3 [out, "health", "network_agents.txt"] t
  let (o4, t) := runT w ["openstack", "volume", "service", "list"] t
  saveT o4 [out, "health", "volume_services.txt"] t

/-- The pod-listing command of `collect_pod_logs`. -/
def podsCmd (ns : String) : List String :=
  ["kubectl", "get", "pods", "-n", ns, "-o", "json"]

/-- The filter of the `matched_pods` comprehension:
`service_name_contains in p['metadata']['name'].lower()` — note that only
the pod name is lower-cased, the filter substring is used verbatim. -/
def podMatch (sub : String) (p : Json) : Except String Bool := do
  let md ← jindexE p "metadata"
  let nm ← jindexE md "name"
  let s ← asStrE nm
  pure (strContains (pyLower s) sub)

/-- Left-to-right effectful filtering, as a Python list comprehension
with a condition evaluates. -/
def filterME (p : Json → Except String Bool) : List Json → Except String (List Json)
  | [] => Except.ok []
  | x :: xs => do
    let b ← p x
    let rest ← filterME p xs
    pure (if b then x :: rest else rest)

/-- The `matched_pods` comprehension of `collect_pod_logs`. -/
def matchedPods (sub : String) (ps : List Json) : Except String (List Json) :=
  filterME (podMatch sub) ps

/-- The per-container body of `collect_pod_logs`: fetch and save current
logs; fetch previous-instance logs and save them only when the fetched
text does not contain the substring ERROR. -/
def processContainer (w : World) (out ns sub podName : String) (cn : Json)
    (t : Trace) : Except (PErr × Trace) Trace := do
  let container ← liftE t (asStrE cn)
  let (lg, t) := runT w ["kubectl", "logs", podName, "-n", ns, "-c", container] t
  let t := saveT lg
    [out, "logs", sub ++ "_" ++ podName ++ "_" ++ container ++ ".log"] t
  let (logPrev, t) := runT w
    ["kubectl", "logs", podName, "-n", ns, "-c", container, "--previous"] t
  if strContains logPrev "ERROR" then
    pure t
  else
    pure (saveT logPrev
      [out, "logs", sub ++ "_" ++ podName ++ "_" ++ container ++ "_previous.log"] t)

/-- The per-pod body of `collect_pod_logs`: container log collection
followed by the pod description. -/
def processPod (w : World) (out ns sub : String) (pod : Json) (t : Trace) :
    Except (PErr × Trace) Trace := do
  let md ← liftE t (jindexE pod "metadata")
  let nmj ← liftE t (jindexE md "name")
  let podName ← liftE t (asStrE nmj)
  let spec ← liftE t (jindexE pod "spec")
  let specKvs ← liftE t (asObjE spec)
  let containersV := (jget specKvs "containers").getD (Json.arr [])
  let containersL ← liftE t (jiter containersV)
  let cns ← liftE t (containersL.mapM (fun c => jindexE c "name"))
  let t ← cns.foldlM (fun t cn => processContainer w out ns sub podName cn t) t
  let (desc, t) := runT w ["kubectl", "describe", "pod", podName, "-n", ns] t
  pure (saveT desc [out, "describe", sub ++ "_" ++ podName ++ ".txt"] t)

/-- `collect_pod_logs(namespace, service_name_contains)` of
`pcddebugger.py`.  Only `json.JSONDecodeError` is caught; an unexpected
shape of a successfully parsed document raises through. -/
def collect_pod_logs (w : World) (out ns sub : String) (t : Trace) :
    Except (PErr × Trace) Trace := do
  let t := logT ("[INFO] Collecting logs for: " ++ sub) t
  let (podsOutput, t) := runT w (podsCmd ns) t
  match w.jsonParse podsOutput with
  | none => pure (logT "[ERROR] Failed to parse pod JSON" t)
  | some pods => do
    let items ← liftE t (jindexE pods "items")
    let itemsL ← liftE t (jiter items)
    let matched ← liftE t (matchedPods sub itemsL)
    matched.foldlM (fun t pod => processPod w out ns sub pod t) t

/-- `collect_namespace_events(namespace)` of `pcddebugger.py`. -/
def collect_namespace_events (w : World) (out ns : String) (t : Trace) : Trace :=
  let (events, t) := runT w
    ["kubectl", "get", "events", "-n", ns, "--sort-by=.lastTimestamp"] t
  saveT events [out, "events", ns ++ "_events.txt"] t

/-- `collect_nova_info(vm_id)` of `pcddebugger.py`: three text artifacts,
then the parsed JSON server detail (the empty dictionary when parsing
fails). -/
def collect_nova_info (w : World) (out vm : String) (t : Trace) : Trace × Json :=
  let t := mkdirT [out, "nova"] t
  let (info, t) := runT w ["openstack", "server", "show", vm] t
  let t := saveT info [out, "nova", "server_show.txt"] t
  let (events, t) := runT w ["openstack", "server", "event", "list", vm] t
  let t := saveT events [out, "nova", "server_events.txt"] t
  let (migs, t) := runT w
    ["openstack", "server", "migration", "list", "--server", vm] t
  let t := saveT migs [out, "nova", "migrations.txt"] t
  let (js, t) := runT w ["openstack", "server", "show", vm, "-f", "json"] t
  match w.jsonParse js with
  | some v => (t, v)
  | none => (logT "[WARN] Failed to parse VM details" t, Json.obj [])

/-- `collect_image_and_flavor(vm_data)` (identical in both scripts); this
function has no surrounding try, so a non-dictionary `vm_data` or a
truthy non-string extracted identifier raises through to `main`. -/
def collect_image_and_flavor (w : World) (out : String) (vmData : Json)
    (t : Trace) : Except (PErr × Trace) Trace := do
  let kvs ← liftE t (asObjE vmData)
  let imageId := extract_id (jget kvs "image")
  let flavorId := extract_id (jget kvs "flavor")
  let t := logT "[DEBUG] image_id, flavor_id" t
  let t ← if jtruthyO imageId then do
      let iid ← liftE t (asStrOE imageId)
      let (img, t2) := runT w ["openstack", "image", "show", iid] t
      pure (saveT img [out, "glance", "image_show.txt"] t2)
    else pure t
  if jtruthyO flavorId then do
    let fid ← liftE t (asStrOE flavorId)
    let (flv, t2) := runT w ["openstack", "flavor", "show", fid] t
    pure (saveT flv [out, "nova", "flavor_show.txt"] t2)
  else pure t

/-- The per-port body of the `try` block of `collect_ports_for_vm`
(`pcddebugger.py`). -/
def port_step (w : World) (out : String) (t : Trace) (port : Json) :
    Except (PErr × Trace) Trace := do
  let kvs ← liftE t (asObjE port)
  let portId := jget kvs "ID"
  let t ← if jtruthyO portId then do
      let pid ← liftE t (asStrOE portId)
      let (d, t2) := runT w ["openstack", "port", "show", pid] t
      pure (saveT d [out, "neutron", "port_" ++ pid ++ ".txt"] t2)
    else pure t
  let networkId := jget kvs "Network ID"
  if jtruthyO networkId then do
    let nid ← liftE t (asStrOE networkId)
    let (d, t2) := runT w ["openstack", "network", "show", nid] t
    pure (saveT d [out, "neutron", "network_" ++ nid ++ ".txt"] t2)
  else pure t

/-- The `try` block of `collect_ports_for_vm` (`pcddebugger.py`). -/
def ports_body (w : World) (out vm : String) (t : Trace) :
    Except (PErr × Trace) Trace := do
  let (js, t) := runT w
    ["openstack", "port", "list", "--device-id", vm, "-f", "json"] t
  let ports ← liftE t (jloadsE w js)
  let portsL ← liftE t (jiter ports)
  portsL.foldlM (port_step w out) t

/-- `collect_ports_for_vm(vm_id)` of `pcddebugger.py`: the raw port
listing is saved outside the `try`, the JSON-driven fan-out inside it. -/
def collect_ports_for_vm (w : World) (out vm : String) (t : Trace) :
    Except (PErr × Trace) Trace :=
  let t := mkdirT [out, "neutron"] t
  let (portsRaw, t) := runT w ["openstack", "port", "list", "--device-id", vm] t
  let t := saveT portsRaw [out, "neutron", "vm_ports.txt"] t
  catchExc (ports_body w out vm t)
    (logT "[WARN] Failed to process VM ports or networks")

/-! ### Security groups, volumes, stacks, users, and `main` -/

mutual
/-- Python equality on JSON values (used for membership in the
`sg_ids` set). -/
def jeq : Json → Json → Bool
  | .str a, .str b => a == b
  | .num a, .num b => a == b
  | .bool a, .bool b => a == b
  | .null, .null => true
  | .arr a, .arr b => jeqList a b
  | .obj a, .obj b => jeqObj a b
  | _, _ => false

/-- Elementwise `jeq` on lists. -/
def jeqList : List Json → List Json → Bool
  | [], [] => true
  | a :: l1, b :: l2 => jeq a b && jeqList l1 l2
  | _, _ => false

/-- Elementwise `jeq` on key-value lists. -/
def jeqObj : List (String × Json) → List (String × Json) → Bool
  | [], [] => true
  | a :: l1, b :: l2 => (a.1 == b.1) && jeq a.2 b.2 && jeqObj l1 l2
  | _, _ => false
end

/-- `sg_ids.update(xs)`: add the elements not already present.  CPython
iterates a set in an unspecified order; the model iterates the
deduplicated elements in insertion order. -/
def sgUpdate (sgIds : List Json) (xs : List Json) : List Json :=
  xs.foldl (fun acc x => if acc.any (jeq x) then acc else acc ++ [x]) sgIds

/-- One iteration of the port loop in `collect_security_groups_for_vm`
(`pcddebugger.py`): read the security-group field straight off the port
listing row, JSON-decoding it when it is a bracketed string. -/
def pcd_sg_port_step (w : World) (acc : List Json × Trace) (port : Json) :
    Except (PErr × Trace) (List Json × Trace) := do
  let (sgIds, t) := acc
  let kvs ← liftE t (asObjE port)
  let a := jget kvs "Security Group"
  let b := jget kvs "Security Groups"
  let sgs := if jtruthyO a then a else b
  match sgs with
  | some (Json.arr l) => pure (sgUpdate sgIds l, t)
  | some (Json.str s) =>
    if s.data.head? == some '[' then do
      let parsed ← liftE t (jloadsE w s)
      let elems ← liftE t (jiter parsed)
      pure (sgUpdate sgIds elems, t)
    else pure (sgIds, t)
  | _ => pure (sgIds, t)

/-- The detail-and-rules fetch for one security group id (identical text
in both scripts). -/
def sg_fetch (w : World) (out : String) (t : Trace) (sg : Json) :
    Except (PErr × Trace) Trace := do
  let t := logT "[INFO] Fetching security group" t
  let sgId ← liftE t (asStrE sg)
  let (d, t) := runT w ["openstack", "security", "group", "show", sgId] t
  let (rl, t) := runT w ["openstack", "security", "group", "rule", "list", sgId] t
  pure (saveT rl [out, "neutron", "security_group_" ++ sgId ++ "_rules.txt"]
    (saveT d [out, "neutron", "security_group_" ++ sgId ++ ".txt"] t))

/-- The `try` block of `collect_security_groups_for_vm`
(`pcddebugger.py`). -/
def pcd_sg_body (w : World) (out vm : String) (t : Trace) :
    Except (PErr × Trace) Trace := do
  let (js, t) := runT w
    ["openstack", "port", "list", "--device-id", vm, "-f", "json"] t
  let ports ← liftE t (jloadsE w js)
  let portsL ← liftE t (jiter ports)
  let (sgIds, t) ← portsL.foldlM (pcd_sg_port_step w) (([] : List Json), t)
  sgIds.foldlM (sg_fetch w out) t

/-- `collect_security_groups_for_vm(vm_id)` of `pcddebugger.py`. -/
def collect_security_groups_for_vm (w : World) (out vm : String) (t : Trace) :
    Except (PErr × Trace) Trace :=
  let t := mkdirT [out, "neutron"] t
  catchExc (pcd_sg_body w out vm t)
    (logT "[WARN] Failed to collect security group info")

/-- The `try` block of `collect_volumes_for_vm` (identical in both
scripts). -/
def volumes_body (w : World) (out vm : String) (t : Trace) :
    Except (PErr × Trace) Trace := do
  let (js, t) := runT w ["openstack", "server", "show", vm, "-f", "json"] t
  let vmJson ← liftE t (jloadsE w js)
  let kvs ← liftE t (asObjE vmJson)
  let attached := (jget kvs "os-extended-volumes:volumes_attached").getD
    (Json.arr [])
  let t := saveT (w.jsonDumps attached) [out, "cinder", "attached_volumes.txt"] t
  let volsL ← liftE t (jiter attached)
  volsL.foldlM (fun t vol => do
    let vkvs ← liftE t (asObjE vol)
    let volId := jget vkvs "id"
    if jtruthyO volId then do
      let vid ← liftE t (asStrOE volId)
      let (d, t2) := runT w ["openstack", "volume", "show", vid] t
      pure (saveT d [out, "cinder", "volume_" ++ vid ++ ".txt"] t2)
    else pure t) t

/-- `collect_volumes_for_vm(vm_id)` (identical in both scripts). -/
def collect_volumes_for_vm (w : World) (out vm : String) (t : Trace) :
    Except (PErr × Trace) Trace :=
  let t := mkdirT [out, "cinder"] t
  catchExc (volumes_body w out vm t)
    (logT "[WARN] Failed to collect volumes for VM")

/-- The `try` block of `collect_stack_info` (identical in both
scripts). -/
def stack_try (w : World) (out stackId : String) (t : Trace) :
    Except (PErr × Trace) Trace := do
  let (js, t) := runT w
    ["openstack", "stack", "resource", "list", stackId, "-f", "json"] t
  let resources ← liftE t (jloadsE w js)
  let resL ← liftE t (jiter resources)
  resL.foldlM (fun t res => do
    let kvs ← liftE t (asObjE res)
    let resName := jget kvs "resource_name"
    if jtruthyO resName then do
      let rn ← liftE t (asStrOE resName)
      let (d, t2) := runT w ["openstack", "stack", "resource", "show", stackId, rn] t
      pure (saveT d [out, "heat", "resource_" ++ rn ++ ".txt"] t2)
    else pure t) t

/-- `collect_stack_info(stack_id)` (identical in both scripts): stack
detail and raw resource listing outside the `try`, per-resource fan-out
inside it. -/
def collect_stack_info (w : World) (out stackId : String) (t : Trace) :
    Except (PErr × Trace) Trace :=
  let t := mkdirT [out, "heat"] t
  let (sshow, t) := runT w ["openstack", "stack", "show", stackId] t
  let t := saveT sshow [out, "heat", "stack_show.txt"] t
  let (rlist, t) := runT w ["openstack", "stack", "resource", "list", stackId] t
  let t := saveT rlist [out, "heat", "stack_resources.txt"] t
  catchExc (stack_try w out stackId t)
    (logT "[WARN] Could not parse Heat resource list")

/-- `collect_keystone_user_info(user_id_or_name)` (identical in both
scripts); it cannot raise. -/
def collect_keystone_user_info (w : World) (out user : String) (t : Trace) :
    Trace :=
  let t := mkdirT [out, "keystone"] t
  let (ui, t) := runT w ["openstack", "user", "show", user] t
  let t := saveT ui [out, "keystone", "user_show.txt"] t
  let (ra, t) := runT w
    ["openstack", "role", "assignment", "list", "--user", user, "--names"] t
  saveT ra [out, "keystone", "user_role_assignments.txt"] t

/-- `archive_output()`: `shutil.make_archive` writes a zip file next to
the output tree; the archive lives outside the modelled directory tree,
so only the completion print is recorded. -/
def archive_output (t : Trace) : Trace :=
  logT "[DONE] Output archived" t

/-- The argument record of `pcddebugger.py` (`namespace` is a Lean
keyword, hence the field name `nspace`). -/
structure Args where
  nspace : String
  output : String
  vm : Option String
  network : Option String
  port : Option String
  volume : Option String
  zip : Bool
  stack : Option String
  user : Option String

/-- The `--vm` block of `main()` (`pcddebugger.py`). -/
def pcd_vm_stage (w : World) (a : Args) (t : Trace) :
    Except (PErr × Trace) Trace :=
  if argTruthy a.vm then
    let vm := a.vm.getD ""
    let p := collect_nova_info w a.output vm t
    (collect_image_and_flavor w a.output p.2 p.1).bind (fun t =>
    (collect_ports_for_vm w a.output vm t).bind (fun t =>
    (collect_volumes_for_vm w a.output vm t).bind (fun t =>
    (collect_security_groups_for_vm w a.output vm t).bind (fun t =>
    ["nova", "glance", "image", "keystone", "neutron", "cinder"].foldlM
      (fun t comp => collect_pod_logs w a.output a.nspace comp t) t))))
  else pure t

/-- The `--network` block of `main()` (`pcddebugger.py`). -/
def pcd_network_stage (w : World) (a : Args) (t : Trace) :
    Except (PErr × Trace) Trace :=
  if argTruthy a.network then collect_pod_logs w a.output a.nspace "neutron" t
  else pure t

/-- The `--port` block of `main()` (`pcddebugger.py`). -/
def pcd_port_stage (w : World) (a : Args) (t : Trace) :
    Except (PErr × Trace) Trace :=
  if argTruthy a.port then collect_pod_logs w a.output a.nspace "neutron" t
  else pure t

/-- The `--volume` block of `main()` (`pcddebugger.py`). -/
def pcd_volume_stage (w : World) (a : Args) (t : Trace) :
    Except (PErr × Trace) Trace :=
  if argTruthy a.volume then collect_pod_logs w a.output a.nspace "cinder" t
  else pure t

/-- The `--stack` block of `main()` (`pcddebugger.py`). -/
def pcd_stack_stage (w : World) (a : Args) (t : Trace) :
    Except (PErr × Trace) Trace :=
  if argTruthy a.stack then
    (collect_stack_info w a.output (a.stack.getD "") t).bind (fun t =>
      collect_pod_logs w a.output a.nspace "heat" t)
  else pure t

/-- The `--user` block of `main()` (`pcddebugger.py`). -/
def pcd_user_stage (w : World) (a : Args) (t : Trace) :
    Except (PErr × Trace) Trace :=
  if argTruthy a.user then
    collect_pod_logs w a.output a.nspace "keystone"
      (collect_keystone_user_info w a.output (a.user.getD "") t)
  else pure t

/-- The summary write and optional archiving at the end of `main()`
(`pcddebugger.py`). -/
def pcd_final_stage (w : World) (a : Args) (t : Trace) :
    Except (PErr × Trace) Trace :=
  let t := saveT ("Debug Summary - " ++ w.now ++ " UTC\nNamespace: " ++
    a.nspace) [a.output, "summary.txt"] t
  if a.zip then pure (archive_output t) else pure t

/-- `main()` of `pcddebugger.py` as a function from the ambient world and
the parsed arguments to how the toplevel frame ends; the flag blocks of
the source are the stage functions above. -/
def pcd_main_run (w : World) (a : Args) : Except (PErr × Trace) Trace :=
  (check_prerequisites w a.nspace (mkdirT [a.output] Trace.empty)).bind
    (fun t => (check_openstack_auth w t).bind (fun t =>
    (pcd_vm_stage w a (collect_namespace_events w a.output a.nspace
      (collect_health_checks w a.output t))).bind (fun t =>
    (pcd_network_stage w a t).bind (fun t =>
    (pcd_port_stage w a t).bind (fun t =>
    (pcd_volume_stage w a t).bind (fun t =>
    (pcd_stack_stage w a t).bind (fun t =>
    (pcd_user_stage w a t).bind (fun t =>
    pcd_final_stage w a t))))))))

/-- The exit status of a `pcddebugger.py` process run. -/
def pcd_main (w : World) (a : Args) : Nat := exitCode (pcd_main_run w a)

/-! ### The collectors of `saasdebugger.py` (where they differ) -/

/-- `check_openstack_auth()` of `saasdebugger.py`: required environment
variables first, then the token issue probe. -/
def saas_check_openstack_auth (w : World) (t : Trace) :
    Except (PErr × Trace) Trace :=
  let t := logT "[INFO] Checking OpenStack authentication..." t
  let missing := ["OS_AUTH_URL", "OS_USERNAME", "OS_PROJECT_NAME"].filter
    (fun v => !(envTruthy (w.envVar v)))
  if !missing.isEmpty then
    Except.error (PErr.exit 1,
      logT "[HINT] Please source your OpenStack RC file"
        (logT "[ERROR] Missing environment variables" t))
  else
    let (r, t) := runT w ["openstack", "token", "issue"] t
    if strContains r "ERROR" || strContains r "Missing" ||
        strContains r "Failed" then
      Except.error (PErr.exit 1,
        logT "[HINT] Please ensure your RC file is sourced"
          (logT "[ERROR] Unable to authenticate with OpenStack." t))
    else
      Except.ok (logT "[OK] OpenStack authentication validated." t)

/-- `collect_health_checks()` of `saasdebugger.py` (adds the hypervisor
listing). -/
def saas_collect_health_checks (w : World) (out : String) (t : Trace) : Trace :=
  let t := mkdirT [out, "health"] t
  let (o1, t) := runT w ["openstack", "compute", "service", "list"] t
  let t := saveT o1 [out, "health", "compute_services.txt"] t
  let (o2, t) := runT w ["openstack", "resource", "provider", "list"] t
  let t := saveT o2 [out, "health", "resource_providers.txt"] t
  let (o3, t) := runT w ["openstack", "network", "agent", "list"] t
  let t := saveT o3 [out, "health", "network_agents.txt"] t
  let (o4, t) := runT w ["openstack", "hypervisor", "list", "--long"] t
  let t := saveT o4 [out, "health", "hypervisors.txt"] t
  let (o5, t) := runT w ["openstack", "volume", "service", "list"] t
  saveT o5 [out, "health", "volume_services.txt"] t

/-- `collect_nova_info(vm_id)` of `saasdebugger.py` (the text form uses
width-fitting flags). -/
def saas_collect_nova_info (w : World) (out vm : String) (t : Trace) :
    Trace × Json :=
  let t := mkdirT [out, "nova"] t
  let (info, t) := runT w
    ["openstack", "server", "show", vm, "--fit-width", "--max-width", "500"] t
  let t := saveT info [out, "nova", "server_show.txt"] t
  let (events, t) := runT w ["openstack", "server", "event", "list", vm] t
  let t := saveT events [out, "nova", "server_events.txt"] t
  let (migs, t) := runT w
    ["openstack", "server", "migration", "list", "--server", vm] t
  let t := saveT migs [out, "nova", "migrations.txt"] t
  let (js, t) := runT w ["openstack", "server", "show", vm, "-f", "json"] t
  match w.jsonParse js with
  | some v => (t, v)
  | none => (logT "[WARN] Failed to parse VM details" t, Json.obj [])

/-- The per-port body of the `try` block of `collect_ports_for_vm`
(`saasdebugger.py`): also saves the raw JSON detail of each port. -/
def saas_port_step (w : World) (out : String) (t : Trace) (port : Json) :
    Except (PErr × Trace) Trace := do
  let kvs ← liftE t (asObjE port)
  let portId := jget kvs "ID"
  let t ← if jtruthyO portId then do
      let pid ← liftE t (asStrOE portId)
      let (d, t2) := runT w ["openstack", "port", "show", pid] t
      let t2 := saveT d [out, "neutron", "port_" ++ pid ++ ".txt"] t2
      let (pj, t2) := runT w ["openstack", "port", "show", pid, "-f", "json"] t2
      pure (saveT pj [out, "neutron", "port_" ++ pid ++ ".json"] t2)
    else pure t
  let networkId := jget kvs "Network ID"
  if jtruthyO networkId then do
    let nid ← liftE t (asStrOE networkId)
    let (d, t2) := runT w ["openstack", "network", "show", nid] t
    pure (saveT d [out, "neutron", "network_" ++ nid ++ ".txt"] t2)
  else pure t

/-- The `try` block of `collect_ports_for_vm` (`saasdebugger.py`). -/
def saas_ports_body (w : World) (out vm : String) (t : Trace) :
    Except (PErr × Trace) Trace := do
  let (js, t) := runT w
    ["openstack", "port", "list", "--device-id", vm, "-f", "json"] t
  let ports ← liftE t (jloadsE w js)
  let portsL ← liftE t (jiter ports)
  portsL.foldlM (saas_port_step w out) t

/-- `collect_ports_for_vm(vm_id)` of `saasdebugger.py`. -/
def saas_collect_ports_for_vm (w : World) (out vm : String) (t : Trace) :
    Except (PErr × Trace) Trace :=
  let t := mkdirT [out, "neutron"] t
  let (portsRaw, t) := runT w ["openstack", "port", "list", "--device-id", vm] t
  let t := saveT portsRaw [out, "neutron", "vm_ports.txt"] t
  catchExc (saas_ports_body w out vm t)
    (logT "[WARN] Failed to process VM ports or networks")

/-- The inner `try` block of the port loop of
`collect_security_groups_for_vm` (`saasdebugger.py`): parse the fetched
port JSON, save the re-serialized document, and absorb its
`security_group_ids` list; any failure inside is logged and abandons only
this port's data thread. -/
def saas_sg_inner (w : World) (out pid pjs : String) (sgIds : List Json)
    (t : Trace) : List Json × Trace :=
  match w.jsonParse pjs with
  | none => (sgIds, logT ("[WARN] Could not parse port " ++ pid ++ " JSON") t)
  | some pj =>
    let t := saveT (w.jsonDumps pj) [out, "neutron", "port_" ++ pid ++ ".json"] t
    match pj with
    | Json.obj pkvs =>
      (match (jget pkvs "security_group_ids").getD (Json.arr []) with
       | Json.arr l => (sgUpdate sgIds l, t)
       | _ => (sgIds, t))
    | _ => (sgIds, logT ("[WARN] Could not parse port " ++ pid ++ " JSON") t)

/-- One iteration of the port loop of `collect_security_groups_for_vm`
(`saasdebugger.py`): skip ports without a truthy ID, re-fetch each
port's JSON detail, and run the inner `try` block on the result. -/
def saas_sg_port_step (w : World) (out : String) (acc : List Json × Trace)
    (port : Json) : Except (PErr × Trace) (List Json × Trace) := do
  let (sgIds, t) := acc
  let kvs ← liftE t (asObjE port)
  let portId := jget kvs "ID"
  if !(jtruthyO portId) then pure (sgIds, t)
  else do
    let pid ← liftE t (asStrOE portId)
    let (pjs, t) := runT w ["openstack", "port", "show", pid, "-f", "json"] t
    pure (saas_sg_inner w out pid pjs sgIds t)

/-- The `try` block of `collect_security_groups_for_vm`
(`saasdebugger.py`). -/
def saas_sg_body (w : World) (out vm : String) (t : Trace) :
    Except (PErr × Trace) Trace := do
  let (js, t) := runT w
    ["openstack", "port", "list", "--device-id", vm, "-f", "json"] t
  let ports ← liftE t (jloadsE w js)
  let portsL ← liftE t (jiter ports)
  let (sgIds, t) ← portsL.foldlM (saas_sg_port_step w out) (([] : List Json), t)
  let t := if sgIds.isEmpty then
      logT "[WARN] No security groups found on any VM ports." t
    else
      logT "[INFO] Found unique security groups for VM." t
  sgIds.foldlM (sg_fetch w out) t

/-- `collect_security_groups_for_vm(vm_id)` of `saasdebugger.py`. -/
def saas_collect_security_groups_for_vm (w : World) (out vm : String)
    (t : Trace) : Except (PErr × Trace) Trace :=
  let t := mkdirT [out, "neutron"] t
  catchExc (saas_sg_body w out vm t)
    (logT "[WARN] Failed to collect security group info")

/-- The argument record of `saasdebugger.py` (no namespace flag; the
`--network`, `--port` and `--volume` flags are declared by the argument
parser but never read by `main`). -/
structure SArgs where
  output : String
  vm : Option String
  network : Option String
  port : Option String
  volume : Option String
  zip : Bool
  stack : Option String
  user : Option String

/-- The `--vm` block of `main()` (`saasdebugger.py`). -/
def saas_vm_stage (w : World) (a : SArgs) (t : Trace) :
    Except (PErr × Trace) Trace :=
  if argTruthy a.vm then
    let vm := a.vm.getD ""
    let p := saas_collect_nova_info w a.output vm t
    (collect_image_and_flavor w a.output p.2 p.1).bind (fun t =>
    (saas_collect_ports_for_vm w a.output vm t).bind (fun t =>
    (collect_volumes_for_vm w a.output vm t).bind (fun t =>
    saas_collect_security_groups_for_vm w a.output vm t)))
  else pure t

/-- The `--stack` block of `main()` (`saasdebugger.py`). -/
def saas_stack_stage (w : World) (a : SArgs) (t : Trace) :
    Except (PErr × Trace) Trace :=
  if argTruthy a.stack then collect_stack_info w a.output (a.stack.getD "") t
  else pure t

/-- The `--user` block of `main()` (`saasdebugger.py`). -/
def saas_user_stage (w : World) (a : SArgs) (t : Trace) : Trace :=
  if argTruthy a.user then
    collect_keystone_user_info w a.output (a.user.getD "") t
  else t

/-- The summary write and optional archiving at the end of `main()`
(`saasdebugger.py`). -/
def saas_final_stage (w : World) (a : SArgs) (t : Trace) :
    Except (PErr × Trace) Trace :=
  let t := saveT ("Debug Summary - " ++ w.now ++ " UTC")
    [a.output, "summary.txt"] t
  if a.zip then pure (archive_output t) else pure t

/-- `main()` of `saasdebugger.py`; the `--network`, `--port` and
`--volume` flags are parsed but never read. -/
def saas_main_run (w : World) (a : SArgs) : Except (PErr × Trace) Trace :=
  (saas_check_openstack_auth w (mkdirT [a.output] Trace.empty)).bind
    (fun t => (saas_vm_stage w a (saas_collect_health_checks w a.output
      t)).bind (fun t =>
    (saas_stack_stage w a t).bind (fun t =>
    saas_final_stage w a (saas_user_stage w a t))))

/-- The exit status of a `saasdebugger.py` process run. -/
def saas_main (w : World) (a : SArgs) : Nat := exitCode (saas_main_run w a)

/-! ### Small helpers for reasoning about the embedding -/

lemma ebind_ok {ε α β : Type} (a : α) (f : α → Except ε β) :
    (Except.ok a >>= f) = f a := rfl

lemma ebind_err {ε α β : Type} (e : ε) (f : α → Except ε β) :
    (Except.error e >>= f : Except ε β) = Except.error e := rfl

lemma epure {ε α : Type} (a : α) : (pure a : Except ε α) = Except.ok a := rfl

lemma readFile_save_self (fs : FS) (x : String) (p : List String) :
    readFile (save_text fs x p) p = some x := by
  show ((((p, x) :: fs.files.filter (fun q => !(q.1 == p))).find?
      (fun q => q.1 == p)).map (fun q => q.2)) = some x
  rw [List.find?_cons_of_pos _ (by simp)]
  rfl

lemma find?_filter_ne (files : List (List String × String)) (p q : List String)
    (hne : q ≠ p) :
    (files.filter (fun r => !(r.1 == p))).find? (fun r => r.1 == q) =
      files.find? (fun r => r.1 == q) := by
  induction files with
  | nil => rfl
  | cons a l ih =>
    by_cases hap : a.1 = p
    · have hpq : (a.1 == q) = false := by
        rw [beq_eq_false_iff_ne, hap]
        exact fun h => hne h.symm
      have hpp : (a.1 == p) = true := beq_iff_eq.mpr hap
      simp [List.filter_cons, List.find?_cons, hpp, hpq, ih]
    · have hpp : (a.1 == p) = false := beq_eq_false_iff_ne.mpr hap
      by_cases haq : a.1 = q
      · have hq : (a.1 == q) = true := beq_iff_eq.mpr haq
        simp [List.filter_cons, List.find?_cons, hpp, hq]
      · have hq : (a.1 == q) = false := beq_eq_false_iff_ne.mpr haq
        simp [List.filter_cons, List.find?_cons, hpp, hq, ih]

lemma readFile_save_ne (fs : FS) (x : String) (p q : List String) (hne : q ≠ p) :
    readFile (save_text fs x p) q = readFile fs q := by
  show ((((p, x) :: fs.files.filter (fun r => !(r.1 == p))).find?
      (fun r => r.1 == q)).map (fun r => r.2)) = readFile fs q
  rw [List.find?_cons_of_neg _ (by simp; exact fun h => hne h.symm)]
  rw [find?_filter_ne fs.files p q hne]
  rfl

/-! ### C10: totality of `extract_id` -/

/-- C10: `extract_id` is total — on every value that is neither a
dictionary nor a string (Python `None`, numbers, booleans, lists, JSON
null) it returns `None` without raising, on a dictionary without an `id`
key it also returns `None`, and a caller (`collect_image_and_flavor`)
holding a server document with no image/flavor entries silently skips
both lookups, running no command at all. -/
theorem extract_id_total :
    extract_id Option.none = Option.none ∧
    (∀ n : Int, extract_id (some (Json.num n)) = none) ∧
    (∀ l, extract_id (some (Json.arr l)) = none) ∧
    (∀ b, extract_id (some (Json.bool b)) = none) ∧
    extract_id (some Json.null) = none ∧
    (∀ kvs, jget kvs "id" = none → extract_id (some (Json.obj kvs)) = none) ∧
    (∀ w out t, collect_image_and_flavor w out (Json.obj []) t =
      Except.ok (logT "[DEBUG] image_id, flavor_id" t)) := by
  refine ⟨rfl, fun n => rfl, fun l => rfl, fun b => rfl, rfl, fun kvs h => ?_, fun w out t => rfl⟩
  show jget kvs "id" = none
  exact h

theorem extract_id_total_witness :
    extract_id (some (Json.num 7)) = none ∧
    extract_id (some (Json.obj [("name", Json.str "x")])) = none ∧
    collect_image_and_flavor wBoom "o" (Json.obj []) Trace.empty =
      Except.ok (logT "[DEBUG] image_id, flavor_id" Trace.empty) := by
  refine ⟨extract_id_total.2.1 7,
    extract_id_total.2.2.2.2.2.1 [("name", Json.str "x")] rfl,
    extract_id_total.2.2.2.2.2.2 wBoom "o" Trace.empty⟩

/-! ### C6: the pod filter of the log collector -/

/-- The name a pod exposes to the filter of `collect_pod_logs`
(`p['metadata']['name']`, which must be a string). -/
def podName? (p : Json) : Option String :=
  (Except.bind (Except.bind (jindexE p "metadata") (fun md => jindexE md "name"))
    asStrE).toOption

lemma exbind_ok {ε α β : Type} (a : α) (f : α → Except ε β) :
    Except.bind (Except.ok a) f = f a := rfl

lemma exbind_err {ε α β : Type} (e : ε) (f : α → Except ε β) :
    (Except.bind (Except.error e) f : Except ε β) = Except.error e := rfl

lemma podMatch_of_name (sub : String) {p : Json} {nm : String}
    (h : podName? p = some nm) :
    podMatch sub p = Except.ok (strContains (pyLower nm) sub) := by
  unfold podName? at h
  cases h1 : jindexE p "metadata" with
  | error e => rw [h1, exbind_err, exbind_err] at h; cases h
  | ok md =>
    rw [h1, exbind_ok] at h
    cases h2 : jindexE md "name" with
    | error e => rw [h2, exbind_err] at h; cases h
    | ok nmv =>
      rw [h2, exbind_ok] at h
      cases h3 : asStrE nmv with
      | error e => rw [h3] at h; cases h
      | ok s =>
        rw [h3] at h
        have hs : s = nm := by
          simpa [Except.toOption] using h
        subst hs
        rw [podMatch, h1, ebind_ok, h2, ebind_ok, h3, ebind_ok]
        rfl

/-- C6 (amended): the log collector selects exactly those pods whose
lower-cased name contains the given substring verbatim; the selection is
insensitive to the casing of the pod name, but — contrary to the original
claim — not to the casing of the substring. -/
theorem matchedPods_lower_filter (sub : String) (ps : List Json)
    (h : ∀ p ∈ ps, ∃ nm, podName? p = some nm) :
    matchedPods sub ps = Except.ok (ps.filter (fun p =>
      match podName? p with
      | some nm => strContains (pyLower nm) sub
      | none => false)) ∧
    (∀ nm nm' : String, pyLower nm = pyLower nm' →
      strContains (pyLower nm) sub = strContains (pyLower nm') sub) := by
  constructor
  · induction ps with
    | nil => rfl
    | cons p ps ih =>
      obtain ⟨nm, hnm⟩ := h p (List.mem_cons_self p ps)
      have hrest := ih (fun q hq => h q (List.mem_cons_of_mem p hq))
      rw [matchedPods] at hrest ⊢
      rw [filterME, podMatch_of_name sub hnm, ebind_ok, hrest, ebind_ok,
        List.filter_cons]
      simp only [hnm]
      cases hb : strContains (pyLower nm) sub <;> simp [hb, epure]
  · intro nm nm' hEq
    rw [hEq]

/-- The test pod for the C6 witness and counterexample. -/
def podNova : Json :=
  Json.obj [("metadata", Json.obj [("name", Json.str "nova-api-0")]),
    ("spec", Json.obj [("containers", Json.arr [])])]

theorem matchedPods_lower_filter_witness :
    matchedPods "nova" [podNova] = Except.ok [podNova] := by
  have h := (matchedPods_lower_filter "nova" [podNova]
    (by
      intro p hp
      rw [List.mem_singleton] at hp
      subst hp
      exact ⟨"nova-api-0", rfl⟩)).1
  exact h.trans rfl

/-- A world serving one pod named nova-api-0 for the C6 counterexample. -/
def wPods : World :=
  { kubeconfigExists := true, envVar := fun _ => some "x",
    run := fun c => if c = podsCmd "ns"
      then { exitCode := 0, stdout := "PJ", stderr := "" }
      else { exitCode := 0, stdout := "log", stderr := "" },
    jsonParse := fun s => if s = "PJ"
      then some (Json.obj [("items", Json.arr [podNova])]) else none,
    jsonDumps := fun _ => "", now := "t" }

/-- C6 counterexample: the matched pod set is not invariant under the
casing of the given substring — the lower-case substring selects the pod
nova-api-0, the upper-case variant of the same substring selects nothing
and the run writes no artifact at all. -/
theorem matchedPods_case_sensitive_cex :
    matchedPods "nova" [podNova] = Except.ok [podNova] ∧
    matchedPods "NOVA" [podNova] = Except.ok [] ∧
    readFile (traceOf (collect_pod_logs wPods "o" "ns" "nova" Trace.empty)).fs
      ["o", "describe", "nova_nova-api-0.txt"] = some "log" ∧
    (traceOf (collect_pod_logs wPods "o" "ns" "NOVA" Trace.empty)).fs.files =
      [] := by
  refine ⟨rfl, rfl, by decide, rfl⟩

/-! ### C7: previous-instance logs -/

lemma runCmd_of_fail {w : World} {c : List String}
    (h : (w.run c).exitCode ≠ 0) :
    runCmd w c = "ERROR: " ++ pyStrip (w.run c).stderr := by
  rw [runCmd]; exact if_neg h

lemma strContains_error_prefix (s : String) :
    strContains ("ERROR: " ++ s) "ERROR" = true := by
  have hd : ("ERROR: " ++ s).data =
      'E' :: 'R' :: 'R' :: 'O' :: 'R' :: ':' :: ' ' :: s.data := by
    simp [String.data_append]
  rw [strContains, hd]
  simp [containsSubAux, List.isPrefixOf]

lemma prevPath_ne (out x : String) :
    ([out, "logs", x ++ "_previous.log"] : List String) ≠
      [out, "logs", x ++ ".log"] := by
  intro h
  have h3 : x ++ "_previous.log" = x ++ ".log" := by
    injection h with _ h2
    injection h2 with _ h3
    injection h3 with h3 _
  have hlen := congrArg String.length h3
  rw [String.length_append, String.length_append] at hlen
  have l1 : "_previous.log".length = 13 := rfl
  have l2 : ".log".length = 4 := rfl
  omega

lemma processContainer_eq (w : World)
    (out ns sub podName container : String) (t : Trace) :
    processContainer w out ns sub podName (Json.str container) t =
      Except.ok
        { cmds := t.cmds ++
            [["kubectl", "logs", podName, "-n", ns, "-c", container],
             ["kubectl", "logs", podName, "-n", ns, "-c", container, "--previous"]],
          fs := if strContains (runCmd w ["kubectl", "logs", podName, "-n", ns,
              "-c", container, "--previous"]) "ERROR" then
              save_text t.fs
                (runCmd w ["kubectl", "logs", podName, "-n", ns, "-c", container])
                [out, "logs", sub ++ "_" ++ podName ++ "_" ++ container ++ ".log"]
            else
              save_text
                (save_text t.fs
                  (runCmd w ["kubectl", "logs", podName, "-n", ns, "-c", container])
                  [out, "logs", sub ++ "_" ++ podName ++ "_" ++ container ++ ".log"])
                (runCmd w ["kubectl", "logs", podName, "-n", ns, "-c", container,
                  "--previous"])
                [out, "logs",
                  sub ++ "_" ++ podName ++ "_" ++ container ++ "_previous.log"],
          logs := t.logs } := by
  simp only [processContainer, liftE, asStrE, ebind_ok, runT, saveT]
  cases strContains (runCmd w ["kubectl", "logs", podName, "-n", ns, "-c",
      container, "--previous"]) "ERROR" <;>
    simp [epure]

/-- C7 (amended): for a matched pod container, `collect_pod_logs` saves
the fetched previous-instance logs to the `_previous.log` file exactly
when the fetched text does not contain the substring ERROR; a failed
fetch (absent previous logs) yields a sentinel string containing ERROR,
so no file is written and the collection continues without error — but
the same skip also fires when available previous logs merely contain the
word ERROR in their text. -/
theorem processContainer_previous_rule (w : World)
    (out ns sub podName container : String) (t : Trace) :
    ∃ t', processContainer w out ns sub podName (Json.str container) t =
        Except.ok t' ∧
      (strContains (runCmd w ["kubectl", "logs", podName, "-n", ns, "-c",
          container, "--previous"]) "ERROR" = false →
        readFile t'.fs [out, "logs",
            sub ++ "_" ++ podName ++ "_" ++ container ++ "_previous.log"] =
          some (runCmd w ["kubectl", "logs", podName, "-n", ns, "-c",
            container, "--previous"])) ∧
      (strContains (runCmd w ["kubectl", "logs", podName, "-n", ns, "-c",
          container, "--previous"]) "ERROR" = true →
        readFile t'.fs [out, "logs",
            sub ++ "_" ++ podName ++ "_" ++ container ++ "_previous.log"] =
          readFile t.fs [out, "logs",
            sub ++ "_" ++ podName ++ "_" ++ container ++ "_previous.log"]) ∧
      ((w.run ["kubectl", "logs", podName, "-n", ns, "-c", container,
          "--previous"]).exitCode ≠ 0 →
        readFile t'.fs [out, "logs",
            sub ++ "_" ++ podName ++ "_" ++ container ++ "_previous.log"] =
          readFile t.fs [out, "logs",
            sub ++ "_" ++ podName ++ "_" ++ container ++ "_previous.log"]) := by
  refine ⟨_, processContainer_eq w out ns sub podName container t, ?_, ?_, ?_⟩
  · intro hfalse
    show readFile (if strContains _ "ERROR" then _ else _) _ = _
    rw [if_neg (by rw [hfalse]; exact Bool.false_ne_true)]
    exact readFile_save_self _ _ _
  · intro htrue
    show readFile (if strContains _ "ERROR" then _ else _) _ = _
    rw [if_pos htrue]
    exact readFile_save_ne _ _ _ _
      (prevPath_ne out (sub ++ "_" ++ podName ++ "_" ++ container))
  · intro hex
    have htrue : strContains (runCmd w ["kubectl", "logs", podName, "-n", ns,
        "-c", container, "--previous"]) "ERROR" = true := by
      rw [runCmd_of_fail hex]
      exact strContains_error_prefix _
    show readFile (if strContains _ "ERROR" then _ else _) _ = _
    rw [if_pos htrue]
    exact readFile_save_ne _ _ _ _
      (prevPath_ne out (sub ++ "_" ++ podName ++ "_" ++ container))

/-- A world in which every fetch succeeds with benign text (for the C7
witness). -/
def wPrevOk : World :=
  { kubeconfigExists := true, envVar := fun _ => none,
    run := fun _ => { exitCode := 0, stdout := "all good", stderr := "" },
    jsonParse := fun _ => none, jsonDumps := fun _ => "", now := "t" }

theorem processContainer_previous_rule_witness :
    readFile (traceOf (processContainer wPrevOk "o" "n" "s" "p" (Json.str "c")
        Trace.empty)).fs
      ["o", "logs", "s" ++ "_" ++ "p" ++ "_" ++ "c" ++ "_previous.log"] =
      some "all good" := by
  obtain ⟨t', heq, h1, h2, h3⟩ :=
    processContainer_previous_rule wPrevOk "o" "n" "s" "p" "c" Trace.empty
  rw [heq]
  exact (h1 (by decide)).trans (by decide)

/-- A world in which the previous-log fetch succeeds but its text
contains the word ERROR (for the C7 counterexample). -/
def wPrevErr : World :=
  { kubeconfigExists := true, envVar := fun _ => none,
    run := fun c =>
      if c = ["kubectl", "logs", "p", "-n", "n", "-c", "c", "--previous"]
      then { exitCode := 0, stdout := "boot ERROR trace", stderr := "" }
      else { exitCode := 0, stdout := "ok", stderr := "" },
    jsonParse := fun _ => none, jsonDumps := fun _ => "", now := "t" }

/-- C7 counterexample: the previous-instance logs are available — the
fetch exits 0 and returns text — yet no `_previous.log` file is written,
because the fetched text happens to contain the word ERROR; the
collection nevertheless continues (both log commands ran). -/
theorem processContainer_available_unsaved_cex :
    (wPrevErr.run ["kubectl", "logs", "p", "-n", "n", "-c", "c",
      "--previous"]).exitCode = 0 ∧
    runCmd wPrevErr ["kubectl", "logs", "p", "-n", "n", "-c", "c",
      "--previous"] = "boot ERROR trace" ∧
    readFile (traceOf (processContainer wPrevErr "o" "n" "s" "p" (Json.str "c")
        Trace.empty)).fs
      ["o", "logs", "s" ++ "_" ++ "p" ++ "_" ++ "c" ++ "_previous.log"] =
      none ∧
    (traceOf (processContainer wPrevErr "o" "n" "s" "p" (Json.str "c")
        Trace.empty)).cmds.length = 2 := by
  refine ⟨rfl, by decide, by decide, rfl⟩

/-! ### Trace-extension machinery -/

/-- The later trace extends the earlier one: commands and logs grow by
suffixes (every new command satisfying `C`), and no file outside `Q` is
touched. -/
def Adds (t t2 : Trace) (C Q : List String → Prop) : Prop :=
  (∃ nc, t2.cmds = t.cmds ++ nc ∧ ∀ c ∈ nc, C c) ∧
  (∃ nl, t2.logs = t.logs ++ nl) ∧
  (∀ p, ¬ Q p → readFile t2.fs p = readFile t.fs p)

/-- A computation result extends the starting trace, whether it returned
or raised an exception, and it never calls `sys.exit`. -/
def RAdds (t : Trace) (r : Except (PErr × Trace) Trace)
    (C Q : List String → Prop) : Prop :=
  match r with
  | Except.ok t2 => Adds t t2 C Q
  | Except.error (PErr.exc _, t2) => Adds t t2 C Q
  | Except.error (PErr.exit _, _) => False

lemma Adds_refl (t : Trace) (C Q : List String → Prop) : Adds t t C Q :=
  ⟨⟨[], by simp, by simp⟩, ⟨[], by simp⟩, fun _ _ => rfl⟩

lemma Adds_trans {t1 t2 t3 : Trace} {C Q : List String → Prop}
    (h1 : Adds t1 t2 C Q) (h2 : Adds t2 t3 C Q) : Adds t1 t3 C Q := by
  obtain ⟨⟨nc1, hc1, hC1⟩, ⟨nl1, hl1⟩, hf1⟩ := h1
  obtain ⟨⟨nc2, hc2, hC2⟩, ⟨nl2, hl2⟩, hf2⟩ := h2
  refine ⟨⟨nc1 ++ nc2, ?_, ?_⟩, ⟨nl1 ++ nl2, ?_⟩, ?_⟩
  · rw [hc2, hc1, List.append_assoc]
  · intro c hc
    rcases List.mem_append.mp hc with h | h
    · exact hC1 c h
    · exact hC2 c h
  · rw [hl2, hl1, List.append_assoc]
  · intro p hp
    rw [hf2 p hp, hf1 p hp]

lemma Adds_logT (t : Trace) (m : String) (C Q : List String → Prop) :
    Adds t (logT m t) C Q :=
  ⟨⟨[], by simp [logT], by simp⟩, ⟨[m], by simp [logT]⟩, fun _ _ => rfl⟩

lemma Adds_mkdirT (t : Trace) (d : List String) (C Q : List String → Prop) :
    Adds t (mkdirT d t) C Q :=
  ⟨⟨[], by simp [mkdirT], by simp⟩, ⟨[], by simp [mkdirT]⟩, fun _ _ => rfl⟩

lemma Adds_runT (w : World) (t : Trace) (c : List String)
    {C Q : List String → Prop} (hC : C c) : Adds t (runT w c t).2 C Q :=
  ⟨⟨[c], by simp [runT], by simp [hC]⟩, ⟨[], by simp [runT]⟩, fun _ _ => rfl⟩

lemma Adds_saveT (t : Trace) (x : String) (p : List String)
    {C Q : List String → Prop} (hQ : Q p) : Adds t (saveT x p t) C Q := by
  refine ⟨⟨[], by simp [saveT], by simp⟩, ⟨[], by simp [saveT]⟩, ?_⟩
  intro q hq
  show readFile (save_text t.fs x p) q = readFile t.fs q
  exact readFile_save_ne _ _ _ _ (fun h => hq (h ▸ hQ))

lemma RAdds_ok {t t2 : Trace} {C Q : List String → Prop}
    (h : Adds t t2 C Q) : RAdds t (Except.ok t2) C Q := h

lemma RAdds_bind {t : Trace} {C Q : List String → Prop}
    {step : Except (PErr × Trace) Trace}
    {cont : Trace → Except (PErr × Trace) Trace}
    (h1 : RAdds t step C Q)
    (h2 : ∀ t1, step = Except.ok t1 → RAdds t1 (cont t1) C Q) :
    RAdds t (step >>= cont) C Q := by
  cases step with
  | ok t1 =>
    rw [ebind_ok]
    have h2' := h2 t1 rfl
    show RAdds t (cont t1) C Q
    cases hr : cont t1 with
    | ok t3 => rw [hr] at h2'; exact Adds_trans h1 h2'
    | error e =>
      obtain ⟨e1, t3⟩ := e
      cases e1 with
      | exc m => rw [hr] at h2'; exact Adds_trans h1 h2'
      | exit n => rw [hr] at h2'; exact h2'
  | error e =>
    rw [ebind_err]
    exact h1

lemma RAdds_liftE_bind {α : Type} {t : Trace} {C Q : List String → Prop}
    {e : Except String α} {cont : α → Except (PErr × Trace) Trace}
    (hok : ∀ a, e = Except.ok a → RAdds t (cont a) C Q) :
    RAdds t (liftE t e >>= cont) C Q := by
  cases e with
  | ok a =>
    rw [show liftE t (Except.ok a) = Except.ok a from rfl, ebind_ok]
    exact hok a rfl
  | error m =>
    rw [show liftE t (Except.error m) = Except.error (PErr.exc m, t) from rfl,
      ebind_err]
    exact Adds_refl t C Q

lemma RAdds_foldlM {α : Type} {C Q : List String → Prop}
    {f : Trace → α → Except (PErr × Trace) Trace} {l : List α}
    (hf : ∀ t1 x, x ∈ l → RAdds t1 (f t1 x) C Q) :
    ∀ t, RAdds t (l.foldlM f t) C Q := by
  induction l with
  | nil => intro t; exact Adds_refl t C Q
  | cons a l ih =>
    intro t
    rw [List.foldlM_cons]
    exact RAdds_bind (hf t a (List.mem_cons_self a l))
      (fun t1 _ => ih (fun t2 x hx => hf t2 x (List.mem_cons_of_mem a hx)) t1)

lemma RAdds_catchExc {t : Trace} {C Q : List String → Prop}
    {r : Except (PErr × Trace) Trace} {m : String}
    (h : RAdds t r C Q) : RAdds t (catchExc r (logT m)) C Q := by
  cases r with
  | ok t2 => exact h
  | error e =>
    obtain ⟨e1, t2⟩ := e
    cases e1 with
    | exc s =>
      show Adds t (logT m t2) C Q
      exact Adds_trans h (Adds_logT t2 m C Q)
    | exit n => exact h.elim

/-! ### C5: parse failures abandon one data thread only -/

/-- The trivial path/command predicate. -/
def TrivP : List String → Prop := fun _ => True

lemma liftE_ok {α : Type} (t : Trace) (a : α) :
    liftE t (Except.ok a) = (Except.ok a : Except (PErr × Trace) α) := rfl

lemma liftE_err {α : Type} (t : Trace) (m : String) :
    liftE t (Except.error m : Except String α) =
      (Except.error (PErr.exc m, t) : Except (PErr × Trace) α) := rfl

lemma data_isEmpty_false {s : String} (h : s ≠ "") : s.data.isEmpty = false := by
  cases s with
  | mk l =>
    cases l with
    | nil => exact absurd rfl h
    | cons a l2 => rfl

lemma RAdds_pre {t t1 : Trace} {C Q : List String → Prop}
    {r : Except (PErr × Trace) Trace} (h : Adds t t1 C Q)
    (h2 : RAdds t1 r C Q) : RAdds t r C Q := by
  cases r with
  | ok t2 => exact Adds_trans h h2
  | error e =>
    obtain ⟨e1, t2⟩ := e
    cases e1 with
    | exc m => exact Adds_trans h h2
    | exit n => exact h2.elim

lemma RAdds_cmds_mem {t : Trace} {r : Except (PErr × Trace) Trace}
    {C Q : List String → Prop} (h : RAdds t r C Q) {c : List String}
    (hc : c ∈ t.cmds) : c ∈ (traceOf r).cmds := by
  cases r with
  | ok t2 =>
    obtain ⟨⟨nc, hcmds, _⟩, _, _⟩ := h
    rw [show traceOf (Except.ok t2) = t2 from rfl, hcmds]
    exact List.mem_append.mpr (Or.inl hc)
  | error e =>
    obtain ⟨e1, t2⟩ := e
    cases e1 with
    | exc m =>
      obtain ⟨⟨nc, hcmds, _⟩, _, _⟩ := h
      rw [show traceOf (Except.error (PErr.exc m, t2)) = t2 from rfl, hcmds]
      exact List.mem_append.mpr (Or.inl hc)
    | exit n => exact h.elim

lemma RAdds_logs_mem {t : Trace} {r : Except (PErr × Trace) Trace}
    {C Q : List String → Prop} (h : RAdds t r C Q) {s : String}
    (hs : s ∈ t.logs) : s ∈ (traceOf r).logs := by
  cases r with
  | ok t2 =>
    obtain ⟨_, ⟨nl, hlogs⟩, _⟩ := h
    rw [show traceOf (Except.ok t2) = t2 from rfl, hlogs]
    exact List.mem_append.mpr (Or.inl hs)
  | error e =>
    obtain ⟨e1, t2⟩ := e
    cases e1 with
    | exc m =>
      obtain ⟨_, ⟨nl, hlogs⟩, _⟩ := h
      rw [show traceOf (Except.error (PErr.exc m, t2)) = t2 from rfl, hlogs]
      exact List.mem_append.mpr (Or.inl hs)
    | exit n => exact h.elim

lemma catchExc_logT_ok {t : Trace} {r : Except (PErr × Trace) Trace}
    {C Q : List String → Prop} {m : String} (h : RAdds t r C Q) :
    ∃ t2, catchExc r (logT m) = Except.ok t2 ∧
      (∀ c ∈ (traceOf r).cmds, c ∈ t2.cmds) ∧
      (∀ s ∈ (traceOf r).logs, s ∈ t2.logs) := by
  cases r with
  | ok t2 => exact ⟨t2, rfl, fun _ hc => hc, fun _ hs => hs⟩
  | error e =>
    obtain ⟨e1, t2⟩ := e
    cases e1 with
    | exc msg =>
      refine ⟨logT m t2, rfl, fun c hc => hc, fun s hs => ?_⟩
      show s ∈ t2.logs ++ [m]
      exact List.mem_append.mpr (Or.inl hs)
    | exit n => exact h.elim

lemma sg_fetch_RAdds (w : World) (out : String) (t : Trace) (sg : Json) :
    RAdds t (sg_fetch w out t sg) TrivP TrivP := by
  rw [sg_fetch]
  refine RAdds_pre (Adds_logT t _ _ _) (RAdds_liftE_bind ?_)
  intro sgId _
  refine RAdds_ok ?_
  refine Adds_trans
    (Adds_runT w _ ["openstack", "security", "group", "show", sgId] trivial) ?_
  refine Adds_trans
    (Adds_runT w _ ["openstack", "security", "group", "rule", "list", sgId]
      trivial) ?_
  refine Adds_trans
    (Adds_saveT _ (runCmd w ["openstack", "security", "group", "show", sgId])
      [out, "neutron", "security_group_" ++ sgId ++ ".txt"] trivial) ?_
  exact Adds_saveT _
    (runCmd w ["openstack", "security", "group", "rule", "list", sgId])
    [out, "neutron", "security_group_" ++ sgId ++ "_rules.txt"] trivial

lemma sg_fetch_fold_RAdds (w : World) (out : String) (sgIds : List Json)
    (t : Trace) : RAdds t (sgIds.foldlM (sg_fetch w out) t) TrivP TrivP :=
  RAdds_foldlM (fun t1 x _ => sg_fetch_RAdds w out t1 x) t

/-- A port row of the port listing that the saas security-group loop can
process without an uncaught error: a dictionary whose ID entry is either
falsy or a string. -/
def portIdOK (port : Json) : Prop :=
  ∃ kvs, port = Json.obj kvs ∧
    (jtruthyO (jget kvs "ID") = false ∨
      ∃ pid, jget kvs "ID" = some (Json.str pid))

lemma saas_sg_inner_spec (w : World) (out pid pjs : String)
    (sgIds : List Json) (t : Trace) :
    (saas_sg_inner w out pid pjs sgIds t).2.cmds = t.cmds ∧
    (∃ nl, (saas_sg_inner w out pid pjs sgIds t).2.logs = t.logs ++ nl) ∧
    (w.jsonParse pjs = none →
      ("[WARN] Could not parse port " ++ pid ++ " JSON") ∈
        (saas_sg_inner w out pid pjs sgIds t).2.logs) := by
  rw [saas_sg_inner]
  cases hp : w.jsonParse pjs with
  | none =>
    refine ⟨rfl, ⟨["[WARN] Could not parse port " ++ pid ++ " JSON"], rfl⟩,
      fun _ => ?_⟩
    show _ ∈ t.logs ++ [_]
    exact List.mem_append.mpr (Or.inr (List.mem_singleton.mpr rfl))
  | some pj =>
    cases pj with
    | obj pkvs =>
      cases hsg : (jget pkvs "security_group_ids").getD (Json.arr []) <;>
        simp only [hsg] <;>
        exact ⟨by simp [saveT], ⟨[], by simp [saveT]⟩,
          fun hn => Option.noConfusion hn⟩
    | str s =>
      exact ⟨by simp [saveT, logT],
        ⟨["[WARN] Could not parse port " ++ pid ++ " JSON"],
          by simp [saveT, logT]⟩,
        fun hn => Option.noConfusion hn⟩
    | num n =>
      exact ⟨by simp [saveT, logT],
        ⟨["[WARN] Could not parse port " ++ pid ++ " JSON"],
          by simp [saveT, logT]⟩,
        fun hn => Option.noConfusion hn⟩
    | bool b =>
      exact ⟨by simp [saveT, logT],
        ⟨["[WARN] Could not parse port " ++ pid ++ " JSON"],
          by simp [saveT, logT]⟩,
        fun hn => Option.noConfusion hn⟩
    | null =>
      exact ⟨by simp [saveT, logT],
        ⟨["[WARN] Could not parse port " ++ pid ++ " JSON"],
          by simp [saveT, logT]⟩,
        fun hn => Option.noConfusion hn⟩
    | arr l =>
      exact ⟨by simp [saveT, logT],
        ⟨["[WARN] Could not parse port " ++ pid ++ " JSON"],
          by simp [saveT, logT]⟩,
        fun hn => Option.noConfusion hn⟩

lemma saas_sg_port_step_ok (w : World) (out : String) (sgIds : List Json)
    (t : Trace) (port : Json) (h : portIdOK port) :
    ∃ res : List Json × Trace,
      saas_sg_port_step w out (sgIds, t) port = Except.ok res ∧
      (∃ nc, res.2.cmds = t.cmds ++ nc) ∧
      (∃ nl, res.2.logs = t.logs ++ nl) ∧
      (∀ kvs pid, port = Json.obj kvs →
        jget kvs "ID" = some (Json.str pid) → pid ≠ "" →
        ["openstack", "port", "show", pid, "-f", "json"] ∈ res.2.cmds ∧
        (w.jsonParse (runCmd w ["openstack", "port", "show", pid, "-f",
            "json"]) = none →
          ("[WARN] Could not parse port " ++ pid ++ " JSON") ∈ res.2.logs)) := by
  obtain ⟨kvs, rfl, hid⟩ := h
  rw [saas_sg_port_step]
  simp only [asObjE, liftE_ok, ebind_ok]
  cases htr : jtruthyO (jget kvs "ID") with
  | false =>
    simp only [htr, Bool.not_false, if_true]
    refine ⟨(sgIds, t), rfl, ⟨[], by simp⟩, ⟨[], by simp⟩, ?_⟩
    intro kvs2 pid hobj hpid hne
    injection hobj with hk
    subst hk
    rw [hpid] at htr
    rw [show jtruthyO (some (Json.str pid)) = !pid.data.isEmpty from rfl,
      data_isEmpty_false hne] at htr
    cases htr
  | true =>
    rcases hid with hfalse | ⟨pid0, hpid0⟩
    · rw [htr] at hfalse; cases hfalse
    · simp only [htr, Bool.not_true, if_false]
      rw [hpid0]
      simp only [asStrOE, liftE_ok, ebind_ok, runT, epure]
      obtain ⟨hcmds, ⟨nl, hlogs⟩, hwarn⟩ := saas_sg_inner_spec w out pid0
        (runCmd w ["openstack", "port", "show", pid0, "-f", "json"]) sgIds
        { t with cmds := t.cmds ++ [["openstack", "port", "show", pid0, "-f",
          "json"]] }
      refine ⟨_, rfl, ⟨_, hcmds⟩, ⟨nl, hlogs⟩, ?_⟩
      intro kvs2 pid hobj hpid hne
      injection hobj with hk
      subst hk
      rw [hpid0] at hpid
      have hpp : pid0 = pid := by
        injection hpid with h1
        injection h1 with h2
      subst hpp
      constructor
      · rw [hcmds]
        exact List.mem_append.mpr (Or.inr (List.mem_singleton.mpr rfl))
      · intro hparse
        exact hwarn hparse

lemma saas_sg_fold_ok (w : World) (out : String) (ports : List Json)
    (h : ∀ p ∈ ports, portIdOK p) :
    ∀ sgIds t, ∃ res : List Json × Trace,
      ports.foldlM (saas_sg_port_step w out) (sgIds, t) = Except.ok res ∧
      (∃ nc, res.2.cmds = t.cmds ++ nc) ∧
      (∃ nl, res.2.logs = t.logs ++ nl) ∧
      (∀ port ∈ ports, ∀ kvs pid, port = Json.obj kvs →
        jget kvs "ID" = some (Json.str pid) → pid ≠ "" →
        ["openstack", "port", "show", pid, "-f", "json"] ∈ res.2.cmds ∧
        (w.jsonParse (runCmd w ["openstack", "port", "show", pid, "-f",
            "json"]) = none →
          ("[WARN] Could not parse port " ++ pid ++ " JSON") ∈ res.2.logs)) := by
  induction ports with
  | nil =>
    intro sgIds t
    exact ⟨(sgIds, t), rfl, ⟨[], by simp⟩, ⟨[], by simp⟩,
      fun port hp => absurd hp (List.not_mem_nil port)⟩
  | cons p ps ih =>
    intro sgIds t
    obtain ⟨res1, hres1, ⟨nc1, hc1⟩, ⟨nl1, hl1⟩, hport1⟩ :=
      saas_sg_port_step_ok w out sgIds t p (h p (List.mem_cons_self p ps))
    obtain ⟨res, hres, ⟨nc2, hc2⟩, ⟨nl2, hl2⟩, hports⟩ :=
      ih (fun q hq => h q (List.mem_cons_of_mem p hq)) res1.1 res1.2
    refine ⟨res, ?_, ⟨nc1 ++ nc2, by rw [hc2, hc1, List.append_assoc]⟩,
      ⟨nl1 ++ nl2, by rw [hl2, hl1, List.append_assoc]⟩, ?_⟩
    · rw [List.foldlM_cons, hres1, ebind_ok]
      exact hres
    · intro port hp kvs pid hobj hpid hne
      rcases List.mem_cons.mp hp with rfl | hp2
      · obtain ⟨hcmd, hlog⟩ := hport1 kvs pid hobj hpid hne
        constructor
        · rw [hc2]
          exact List.mem_append.mpr (Or.inl hcmd)
        · intro hparse
          rw [hl2]
          exact List.mem_append.mpr (Or.inl (hlog hparse))
      · exact hports port hp2 kvs pid hobj hpid hne

lemma cons3_ne {x y a b : String} (h : a ≠ b) :
    ([x, y, a] : List String) ≠ [x, y, b] := by
  intro he
  injection he with _ h2
  injection h2 with _ h3
  injection h3 with h4
  exact h h4

/-- C5: in every fan-out collector, a JSON parse failure is logged and
abandons only that one data thread: (1) a pod-list parse failure makes
`collect_pod_logs` return normally having only logged the error; (2) a
port-list parse failure makes `collect_ports_for_vm` return normally,
the raw port listing already saved, with the warning logged; (3) in the
saas security-group loop, a parse failure of one port's detail is logged
while the detail command of every other (and the same) port still runs;
(4) a server-detail parse failure makes `collect_nova_info` return the
empty dictionary with the three earlier artifacts intact; (5) a
stack-resource-list parse failure makes `collect_stack_info` return
normally with the two earlier artifacts intact.  No exception escapes
any of these functions on a parse failure. -/
theorem json_parse_failure_isolated :
    (∀ w out ns sub t, w.jsonParse (runCmd w (podsCmd ns)) = none →
      collect_pod_logs w out ns sub t = Except.ok
        (logT "[ERROR] Failed to parse pod JSON"
          { t with cmds := t.cmds ++ [podsCmd ns],
                   logs := t.logs ++ ["[INFO] Collecting logs for: " ++ sub] })) ∧
    (∀ w out vm t, w.jsonParse (runCmd w
        ["openstack", "port", "list", "--device-id", vm, "-f", "json"]) = none →
      ∃ t2, collect_ports_for_vm w out vm t = Except.ok t2 ∧
        t2.logs = t.logs ++ ["[WARN] Failed to process VM ports or networks"] ∧
        readFile t2.fs [out, "neutron", "vm_ports.txt"] =
          some (runCmd w ["openstack", "port", "list", "--device-id", vm]) ∧
        t2.cmds = t.cmds ++ [["openstack", "port", "list", "--device-id", vm],
          ["openstack", "port", "list", "--device-id", vm, "-f", "json"]]) ∧
    (∀ w out vm t ports, w.jsonParse (runCmd w
        ["openstack", "port", "list", "--device-id", vm, "-f", "json"]) =
          some (Json.arr ports) →
      (∀ p ∈ ports, portIdOK p) →
      ∃ t2, saas_collect_security_groups_for_vm w out vm t = Except.ok t2 ∧
        (∀ port ∈ ports, ∀ kvs pid, port = Json.obj kvs →
          jget kvs "ID" = some (Json.str pid) → pid ≠ "" →
          ["openstack", "port", "show", pid, "-f", "json"] ∈ t2.cmds ∧
          (w.jsonParse (runCmd w ["openstack", "port", "show", pid, "-f",
              "json"]) = none →
            ("[WARN] Could not parse port " ++ pid ++ " JSON") ∈ t2.logs))) ∧
    (∀ w out vm t, w.jsonParse (runCmd w
        ["openstack", "server", "show", vm, "-f", "json"]) = none →
      (collect_nova_info w out vm t).2 = Json.obj [] ∧
      (collect_nova_info w out vm t).1.logs =
        t.logs ++ ["[WARN] Failed to parse VM details"] ∧
      readFile (collect_nova_info w out vm t).1.fs
        [out, "nova", "server_show.txt"] =
        some (runCmd w ["openstack", "server", "show", vm]) ∧
      readFile (collect_nova_info w out vm t).1.fs
        [out, "nova", "server_events.txt"] =
        some (runCmd w ["openstack", "server", "event", "list", vm]) ∧
      readFile (collect_nova_info w out vm t).1.fs
        [out, "nova", "migrations.txt"] =
        some (runCmd w ["openstack", "server", "migration", "list",
          "--server", vm])) ∧
    (∀ w out sid t, w.jsonParse (runCmd w
        ["openstack", "stack", "resource", "list", sid, "-f", "json"]) = none →
      ∃ t2, collect_stack_info w out sid t = Except.ok t2 ∧
        t2.logs = t.logs ++ ["[WARN] Could not parse Heat resource list"] ∧
        readFile t2.fs [out, "heat", "stack_show.txt"] =
          some (runCmd w ["openstack", "stack", "show", sid]) ∧
        readFile t2.fs [out, "heat", "stack_resources.txt"] =
          some (runCmd w ["openstack", "stack", "resource", "list", sid])) := by
  refine ⟨?_, ?_, ?_, ?_, ?_⟩
  · -- (1) pod list
    intro w out ns sub t hp
    rw [collect_pod_logs]
    simp only [runT]
    rw [hp]
    rfl
  · -- (2) port list
    intro w out vm t hp
    rw [collect_ports_for_vm]
    simp only [ports_body, runT]
    rw [jloadsE, hp]
    simp only [liftE_err, ebind_err, catchExc]
    refine ⟨_, rfl, ?_, ?_, ?_⟩
    · simp [logT, saveT, mkdirT]
    · show readFile (save_text _ _ _) _ = _
      exact readFile_save_self _ _ _
    · simp [logT, saveT, mkdirT]
  · -- (3) saas port detail
    intro w out vm t ports hparse hports
    obtain ⟨⟨sgIds0, tF⟩, hres, ⟨nc, hcmds⟩, ⟨nl, hlogs⟩, hmem⟩ :=
      saas_sg_fold_ok w out ports hports []
        (runT w ["openstack", "port", "list", "--device-id", vm, "-f", "json"]
          (mkdirT [out, "neutron"] t)).2
    have hbody : saas_sg_body w out vm (mkdirT [out, "neutron"] t) =
        sgIds0.foldlM (sg_fetch w out)
          (if sgIds0.isEmpty then
            logT "[WARN] No security groups found on any VM ports." tF
          else logT "[INFO] Found unique security groups for VM." tF) := by
      rw [saas_sg_body]
      simp only [runT]
      rw [show jloadsE w (runCmd w ["openstack", "port", "list", "--device-id",
        vm, "-f", "json"]) = Except.ok (Json.arr ports) from by
          rw [jloadsE, hparse]]
      simp only [liftE_ok, ebind_ok]
      rw [show jiter (Json.arr ports) = Except.ok ports from rfl]
      simp only [liftE_ok, ebind_ok]
      rw [show (runT w ["openstack", "port", "list", "--device-id", vm, "-f",
        "json"] (mkdirT [out, "neutron"] t)).2 =
        { mkdirT [out, "neutron"] t with
          cmds := (mkdirT [out, "neutron"] t).cmds ++
            [["openstack", "port", "list", "--device-id", vm, "-f", "json"]] }
        from rfl] at hres
      rw [hres, ebind_ok]
    have hcmd2 : (if sgIds0.isEmpty then
        logT "[WARN] No security groups found on any VM ports." tF
      else logT "[INFO] Found unique security groups for VM." tF).cmds =
        tF.cmds := by
      cases sgIds0.isEmpty <;> rfl
    have hlog2 : ∀ s ∈ tF.logs, s ∈ (if sgIds0.isEmpty then
        logT "[WARN] No security groups found on any VM ports." tF
      else logT "[INFO] Found unique security groups for VM." tF).logs := by
      cases sgIds0.isEmpty <;>
        exact fun s hs => List.mem_append.mpr (Or.inl hs)
    have hR := sg_fetch_fold_RAdds w out sgIds0
      (if sgIds0.isEmpty then
        logT "[WARN] No security groups found on any VM ports." tF
      else logT "[INFO] Found unique security groups for VM." tF)
    obtain ⟨t2, hcatch, hcmem, hlmem⟩ := catchExc_logT_ok hR
    refine ⟨t2, ?_, ?_⟩
    · rw [saas_collect_security_groups_for_vm, hbody]
      exact hcatch
    · intro port hp kvs pid hobj hpid hne
      obtain ⟨hcc, hll⟩ := hmem port hp kvs pid hobj hpid hne
      constructor
      · exact hcmem _ (RAdds_cmds_mem hR (hcmd2 ▸ hcc))
      · intro hpnone
        exact hlmem _ (RAdds_logs_mem hR (hlog2 _ (hll hpnone)))
  · -- (4) server detail
    intro w out vm t hp
    rw [collect_nova_info]
    simp only [runT]
    rw [hp]
    refine ⟨rfl, by simp [logT, saveT, mkdirT], ?_, ?_, ?_⟩
    · show readFile (save_text (save_text (save_text _ _ _) _ _) _ _) _ = _
      rw [readFile_save_ne _ _ _ _ (cons3_ne (by decide)),
        readFile_save_ne _ _ _ _ (cons3_ne (by decide))]
      exact readFile_save_self _ _ _
    · show readFile (save_text (save_text (save_text _ _ _) _ _) _ _) _ = _
      rw [readFile_save_ne _ _ _ _ (cons3_ne (by decide))]
      exact readFile_save_self _ _ _
    · show readFile (save_text (save_text (save_text _ _ _) _ _) _ _) _ = _
      exact readFile_save_self _ _ _
  · -- (5) stack resource list
    intro w out sid t hp
    rw [collect_stack_info]
    simp only [stack_try, runT]
    rw [jloadsE, hp]
    simp only [liftE_err, ebind_err, catchExc]
    refine ⟨_, rfl, ?_, ?_, ?_⟩
    · simp [logT, saveT, mkdirT]
    · show readFile (save_text (save_text _ _ _) _ _) _ = _
      rw [readFile_save_ne _ _ _ _ (cons3_ne (by decide))]
      exact readFile_save_self _ _ _
    · show readFile (save_text (save_text _ _ _) _ _) _ = _
      exact readFile_save_self _ _ _

/-- A world whose JSON never parses (for the C5 witness). -/
def wNoJson : World :=
  { kubeconfigExists := true, envVar := fun _ => some "x",
    run := fun _ => { exitCode := 0, stdout := "out", stderr := "" },
    jsonParse := fun _ => none, jsonDumps := fun _ => "", now := "t" }

/-- A single port row for the C5 witness. -/
def portP1 : Json := Json.obj [("ID", Json.str "p1")]

/-- A world serving one port whose detail JSON fails to parse (for the
C5 witness). -/
def wSg : World :=
  { kubeconfigExists := true, envVar := fun _ => some "x",
    run := fun c =>
      if c = ["openstack", "port", "list", "--device-id", "vm", "-f", "json"]
      then { exitCode := 0, stdout := "PL", stderr := "" }
      else { exitCode := 0, stdout := "PD", stderr := "" },
    jsonParse := fun s => if s = "PL" then some (Json.arr [portP1]) else none,
    jsonDumps := fun _ => "", now := "t" }

theorem json_parse_failure_isolated_witness :
    collect_pod_logs wNoJson "o" "n" "nova" Trace.empty = Except.ok
      { cmds := [podsCmd "n"], fs := { dirs := [], files := [] },
        logs := ["[INFO] Collecting logs for: nova",
          "[ERROR] Failed to parse pod JSON"] } ∧
    (traceOf (collect_ports_for_vm wNoJson "o" "vm" Trace.empty)).logs =
      ["[WARN] Failed to process VM ports or networks"] ∧
    readFile (traceOf (collect_ports_for_vm wNoJson "o" "vm"
      Trace.empty)).fs ["o", "neutron", "vm_ports.txt"] = some "out" ∧
    (["openstack", "port", "show", "p1", "-f", "json"] ∈
      (traceOf (saas_collect_security_groups_for_vm wSg "o" "vm"
        Trace.empty)).cmds) ∧
    (("[WARN] Could not parse port " ++ "p1" ++ " JSON") ∈
      (traceOf (saas_collect_security_groups_for_vm wSg "o" "vm"
        Trace.empty)).logs) ∧
    (collect_nova_info wNoJson "o" "vm" Trace.empty).2 = Json.obj [] ∧
    readFile (collect_nova_info wNoJson "o" "vm" Trace.empty).1.fs
      ["o", "nova", "server_show.txt"] = some "out" ∧
    (traceOf (collect_stack_info wNoJson "o" "s1" Trace.empty)).logs =
      ["[WARN] Could not parse Heat resource list"] := by
  obtain ⟨h1, h2, h3, h4, h5⟩ := json_parse_failure_isolated
  obtain ⟨t2, ht2, hl2, hr2, hc2⟩ := h2 wNoJson "o" "vm" Trace.empty rfl
  obtain ⟨t3, ht3, hmem3⟩ := h3 wSg "o" "vm" Trace.empty [portP1] rfl
    (by
      intro p hp
      rw [List.mem_singleton] at hp
      subst hp
      exact ⟨[("ID", Json.str "p1")], rfl, Or.inr ⟨"p1", rfl⟩⟩)
  obtain ⟨hshow, hwarn⟩ := hmem3 portP1 (List.mem_singleton.mpr rfl)
    [("ID", Json.str "p1")] "p1" rfl rfl (by decide)
  obtain ⟨t5, ht5, hl5, _, _⟩ := h5 wNoJson "o" "s1" Trace.empty rfl
  refine ⟨(h1 wNoJson "o" "n" "nova" Trace.empty rfl).trans rfl, ?_, ?_,
    ?_, ?_, ?_, ?_, ?_⟩
  · rw [ht2]; exact hl2.trans rfl
  · rw [ht2]; exact hr2.trans (by decide)
  · rw [ht3]; exact hshow
  · rw [ht3]; exact hwarn rfl
  · exact (h4 wNoJson "o" "vm" Trace.empty rfl).1
  · exact (h4 wNoJson "o" "vm" Trace.empty rfl).2.2.1.trans (by decide)
  · rw [ht5]; exact hl5.trans rfl

/-! ### C4: well-formedness conditions under which the collectors cannot
raise -/

/-- A container entry the log collector can process: a dictionary whose
`name` entry is a string. -/
def ContainerWF (c : Json) : Prop :=
  ∃ ck s, c = Json.obj ck ∧ jget ck "name" = some (Json.str s)

/-- A pod document the log collector can process without raising. -/
def PodWF (p : Json) : Prop :=
  ∃ kvs md nm sp, p = Json.obj kvs ∧
    jget kvs "metadata" = some (Json.obj md) ∧
    jget md "name" = some (Json.str nm) ∧
    jget kvs "spec" = some (Json.obj sp) ∧
    ((∃ cs, (jget sp "containers").getD (Json.arr []) = Json.arr cs ∧
      ∀ c ∈ cs, ContainerWF c))

/-- Every successfully parsed pod listing of the namespace has the shape
`collect_pod_logs` expects. -/
def PodsOK (w : World) (ns : String) : Prop :=
  ∀ j, w.jsonParse (runCmd w (podsCmd ns)) = some j →
    ∃ kvs l, j = Json.obj kvs ∧ jget kvs "items" = some (Json.arr l) ∧
      ∀ p ∈ l, PodWF p

/-- An extracted image/flavor identifier the caller can use: either
falsy (the lookup is skipped) or a string. -/
def IdOK (r : Option Json) : Prop :=
  jtruthyO r = false ∨ ∃ s, r = some (Json.str s)

/-- A parsed server document `collect_image_and_flavor` can process. -/
def VmDataOK (vd : Json) : Prop :=
  ∃ kvs, vd = Json.obj kvs ∧ IdOK (extract_id (jget kvs "image")) ∧
    IdOK (extract_id (jget kvs "flavor"))

/-- Every successfully parsed server detail yields a document
`collect_image_and_flavor` can process. -/
def VmOK (w : World) (vm : String) : Prop :=
  ∀ j, w.jsonParse (runCmd w ["openstack", "server", "show", vm, "-f",
    "json"]) = some j → VmDataOK j

lemma foldlM_ok {α : Type} {f : Trace → α → Except (PErr × Trace) Trace}
    {l : List α} (hf : ∀ t x, x ∈ l → ∃ t2, f t x = Except.ok t2) :
    ∀ t, ∃ t2, l.foldlM f t = Except.ok t2 := by
  induction l with
  | nil => intro t; exact ⟨t, rfl⟩
  | cons a l ih =>
    intro t
    obtain ⟨t1, h1⟩ := hf t a (List.mem_cons_self a l)
    obtain ⟨t2, h2⟩ := ih (fun t x hx => hf t x (List.mem_cons_of_mem a hx)) t1
    exact ⟨t2, by rw [List.foldlM_cons, h1, ebind_ok, h2]⟩

lemma filterME_ok_sublist {p : Json → Except String Bool} {l : List Json}
    (hp : ∀ x ∈ l, ∃ b, p x = Except.ok b) :
    ∃ l2, filterME p l = Except.ok l2 ∧ ∀ x ∈ l2, x ∈ l := by
  induction l with
  | nil => exact ⟨[], rfl, fun x hx => absurd hx (List.not_mem_nil x)⟩
  | cons a l ih =>
    obtain ⟨b, hb⟩ := hp a (List.mem_cons_self a l)
    obtain ⟨l2, hl2, hsub⟩ := ih (fun x hx => hp x (List.mem_cons_of_mem a hx))
    refine ⟨if b then a :: l2 else l2, ?_, ?_⟩
    · rw [filterME, hb, ebind_ok, hl2, ebind_ok]
      rfl
    · intro x hx
      cases b with
      | true =>
        rcases List.mem_cons.mp hx with rfl | hx2
        · exact List.mem_cons_self x l
        · exact List.mem_cons_of_mem a (hsub x hx2)
      | false => exact List.mem_cons_of_mem a (hsub x hx)

lemma podWF_name {p : Json} (h : PodWF p) : ∃ nm, podName? p = some nm := by
  obtain ⟨kvs, md, nm, sp, rfl, hmd, hnm, _, _⟩ := h
  refine ⟨nm, ?_⟩
  rw [podName?,
    show jindexE (Json.obj kvs) "metadata" = Except.ok (Json.obj md) from by
      rw [jindexE, hmd],
    exbind_ok,
    show jindexE (Json.obj md) "name" = Except.ok (Json.str nm) from by
      rw [jindexE, hnm],
    exbind_ok]
  rfl

lemma ebind_isOk {step : Except (PErr × Trace) Trace}
    {cont : Trace → Except (PErr × Trace) Trace}
    (h1 : ∃ t1, step = Except.ok t1)
    (h2 : ∀ t1, ∃ t2, cont t1 = Except.ok t2) :
    ∃ t2, (step >>= cont) = Except.ok t2 := by
  obtain ⟨t1, e1⟩ := h1
  obtain ⟨t2, e2⟩ := h2 t1
  exact ⟨t2, by rw [e1, ebind_ok, e2]⟩

lemma mapM_names_ok {cs : List Json} (h : ∀ c ∈ cs, ContainerWF c) :
    ∃ names, cs.mapM (fun c => jindexE c "name") = Except.ok names ∧
      ∀ x ∈ names, ∃ s, x = Json.str s := by
  induction cs with
  | nil => exact ⟨[], rfl, fun x hx => absurd hx (List.not_mem_nil x)⟩
  | cons c cs ih =>
    obtain ⟨ck, s, rfl, hname⟩ := h c (List.mem_cons_self c cs)
    obtain ⟨names, hnames, hstr⟩ :=
      ih (fun c2 h2 => h c2 (List.mem_cons_of_mem _ h2))
    refine ⟨Json.str s :: names, ?_, ?_⟩
    · rw [List.mapM_cons,
        show jindexE (Json.obj ck) "name" = Except.ok (Json.str s) from by
          rw [jindexE, hname],
        ebind_ok, hnames, ebind_ok]
      rfl
    · intro x hx
      rcases List.mem_cons.mp hx with rfl | hx2
      · exact ⟨s, rfl⟩
      · exact hstr x hx2

lemma processPod_ok {w : World} {out ns sub : String} {p : Json}
    (h : PodWF p) : ∀ t, ∃ t2, processPod w out ns sub p t = Except.ok t2 := by
  obtain ⟨kvs, md, nm, sp, rfl, hmd, hnm, hsp, cs, hcs, hcont⟩ := h
  intro t
  obtain ⟨names, hnames, hstr⟩ := mapM_names_ok hcont
  rw [processPod,
    show jindexE (Json.obj kvs) "metadata" = Except.ok (Json.obj md) from by
      rw [jindexE, hmd],
    liftE_ok, ebind_ok,
    show jindexE (Json.obj md) "name" = Except.ok (Json.str nm) from by
      rw [jindexE, hnm],
    liftE_ok, ebind_ok,
    show asStrE (Json.str nm) = Except.ok nm from rfl, liftE_ok, ebind_ok,
    show jindexE (Json.obj kvs) "spec" = Except.ok (Json.obj sp) from by
      rw [jindexE, hsp],
    liftE_ok, ebind_ok,
    show asObjE (Json.obj sp) = Except.ok sp from rfl, liftE_ok, ebind_ok,
    hcs]
  simp only []
  rw [show jiter (Json.arr cs) = Except.ok cs from rfl, liftE_ok, ebind_ok,
    hnames, liftE_ok, ebind_ok]
  have hfold : ∀ t1, ∃ t2,
      names.foldlM (fun t cn => processContainer w out ns sub nm cn t) t1 =
        Except.ok t2 := by
    refine foldlM_ok ?_
    intro t1 x hx
    obtain ⟨s, rfl⟩ := hstr x hx
    exact ⟨_, processContainer_eq w out ns sub nm s t1⟩
  obtain ⟨tf, htf⟩ := hfold t
  rw [htf, ebind_ok]
  exact ⟨_, rfl⟩

lemma collect_pod_logs_ok {w : World} {ns : String} (hp : PodsOK w ns)
    (out sub : String) : ∀ t, ∃ t2,
      collect_pod_logs w out ns sub t = Except.ok t2 := by
  intro t
  rw [collect_pod_logs]
  simp only [runT]
  cases hj : w.jsonParse (runCmd w (podsCmd ns)) with
  | none => exact ⟨_, rfl⟩
  | some j =>
    obtain ⟨kvs, l, rfl, hitems, hpods⟩ := hp j hj
    simp only []
    rw [show jindexE (Json.obj kvs) "items" = Except.ok (Json.arr l) from by
        rw [jindexE, hitems],
      liftE_ok, ebind_ok,
      show jiter (Json.arr l) = Except.ok l from rfl, liftE_ok, ebind_ok]
    obtain ⟨l2, hl2, hsub⟩ := filterME_ok_sublist
      (show ∀ x ∈ l, ∃ b, podMatch sub x = Except.ok b by
        intro x hx
        obtain ⟨nm, hnm⟩ := podWF_name (hpods x hx)
        exact ⟨_, podMatch_of_name sub hnm⟩)
    have hl2m : matchedPods sub l = Except.ok l2 := hl2
    rw [hl2m, liftE_ok, ebind_ok]
    refine foldlM_ok ?_ _
    intro t1 x hx
    exact processPod_ok (hpods x (hsub x hx)) t1

lemma collect_image_and_flavor_ok {vd : Json} (h : VmDataOK vd)
    (w : World) (out : String) : ∀ t, ∃ t2,
      collect_image_and_flavor w out vd t = Except.ok t2 := by
  obtain ⟨kvs, rfl, himg, hflv⟩ := h
  intro t
  rw [collect_image_and_flavor,
    show asObjE (Json.obj kvs) = Except.ok kvs from rfl, liftE_ok, ebind_ok]
  simp only []
  have hfin : ∀ t1, ∃ t2,
      (if jtruthyO (extract_id (jget kvs "flavor")) = true then do
        let fid ← liftE t1 (asStrOE (extract_id (jget kvs "flavor")))
        pure (saveT (runT w ["openstack", "flavor", "show", fid] t1).1
          [out, "nova", "flavor_show.txt"]
          (runT w ["openstack", "flavor", "show", fid] t1).2)
      else pure t1) = Except.ok t2 := by
    intro t1
    cases hflv with
    | inl hf =>
      rw [hf]
      exact ⟨_, rfl⟩
    | inr hf =>
      obtain ⟨s, hs⟩ := hf
      rw [hs]
      by_cases hb : jtruthyO (some (Json.str s)) = true
      · rw [if_pos hb]
        exact ⟨_, rfl⟩
      · rw [if_neg hb]
        exact ⟨_, rfl⟩
  cases himg with
  | inl hi =>
    rw [hi, if_neg (by decide : ¬ (false = true))]
    simp only [epure, ebind_ok]
    exact hfin _
  | inr hi =>
    obtain ⟨si, hsi⟩ := hi
    rw [hsi]
    by_cases hbi : jtruthyO (some (Json.str si)) = true
    · rw [if_pos hbi,
        show asStrOE (some (Json.str si)) = Except.ok si from rfl,
        liftE_ok, ebind_ok]
      simp only [epure, ebind_ok]
      exact hfin _
    · rw [if_neg hbi]
      simp only [epure, ebind_ok]
      exact hfin _

lemma collect_nova_info_VmDataOK {w : World} {vm : String} (h : VmOK w vm)
    (out : String) (t : Trace) :
    VmDataOK (collect_nova_info w out vm t).2 := by
  rw [collect_nova_info]
  simp only [runT]
  cases hj : w.jsonParse (runCmd w ["openstack", "server", "show", vm, "-f",
      "json"]) with
  | none => exact ⟨[], rfl, Or.inl rfl, Or.inl rfl⟩
  | some j => exact h j hj

lemma saas_collect_nova_info_VmDataOK {w : World} {vm : String}
    (h : VmOK w vm) (out : String) (t : Trace) :
    VmDataOK (saas_collect_nova_info w out vm t).2 := by
  rw [saas_collect_nova_info]
  simp only [runT]
  cases hj : w.jsonParse (runCmd w ["openstack", "server", "show", vm, "-f",
      "json"]) with
  | none => exact ⟨[], rfl, Or.inl rfl, Or.inl rfl⟩
  | some j => exact h j hj

/-! ### Totality of the try/except-wrapped collectors -/

/-- `RAdds` for computations carrying an extra state component. -/
def RAddsP {σ : Type} (t : Trace) (r : Except (PErr × Trace) (σ × Trace))
    (C Q : List String → Prop) : Prop :=
  match r with
  | Except.ok (_, t2) => Adds t t2 C Q
  | Except.error (PErr.exc _, t2) => Adds t t2 C Q
  | Except.error (PErr.exit _, _) => False

lemma RAddsP_ok {σ : Type} {t t2 : Trace} {C Q : List String → Prop}
    (s : σ) (h : Adds t t2 C Q) : RAddsP t (Except.ok (s, t2)) C Q := h

lemma RAddsP_pre {σ : Type} {t t1 : Trace} {C Q : List String → Prop}
    {r : Except (PErr × Trace) (σ × Trace)} (h : Adds t t1 C Q)
    (h2 : RAddsP t1 r C Q) : RAddsP t r C Q := by
  cases r with
  | ok p => obtain ⟨s, t2⟩ := p; exact Adds_trans h h2
  | error e =>
    obtain ⟨e1, t2⟩ := e
    cases e1 with
    | exc m => exact Adds_trans h h2
    | exit n => exact h2.elim

lemma RAddsP_bind {σ : Type} {t : Trace} {C Q : List String → Prop}
    {step : Except (PErr × Trace) (σ × Trace)}
    {cont : σ × Trace → Except (PErr × Trace) Trace}
    (h1 : RAddsP t step C Q)
    (h2 : ∀ s t1, step = Except.ok (s, t1) → RAdds t1 (cont (s, t1)) C Q) :
    RAdds t (step >>= cont) C Q := by
  cases step with
  | ok p =>
    obtain ⟨s, t1⟩ := p
    rw [ebind_ok]
    exact RAdds_pre h1 (h2 s t1 rfl)
  | error e =>
    rw [ebind_err]
    obtain ⟨e1, t2⟩ := e
    cases e1 with
    | exc m => exact h1
    | exit n => exact h1.elim

lemma RAddsP_bindP {σ σ2 : Type} {t : Trace} {C Q : List String → Prop}
    {step : Except (PErr × Trace) (σ × Trace)}
    {cont : σ × Trace → Except (PErr × Trace) (σ2 × Trace)}
    (h1 : RAddsP t step C Q)
    (h2 : ∀ s t1, step = Except.ok (s, t1) → RAddsP t1 (cont (s, t1)) C Q) :
    RAddsP t (step >>= cont) C Q := by
  cases step with
  | ok p =>
    obtain ⟨s, t1⟩ := p
    rw [ebind_ok]
    exact RAddsP_pre h1 (h2 s t1 rfl)
  | error e =>
    rw [ebind_err]
    obtain ⟨e1, t2⟩ := e
    cases e1 with
    | exc m => exact h1
    | exit n => exact h1.elim

lemma RAddsP_liftE_bind {α σ : Type} {t : Trace} {C Q : List String → Prop}
    {e : Except String α} {cont : α → Except (PErr × Trace) (σ × Trace)}
    (hok : ∀ a, e = Except.ok a → RAddsP t (cont a) C Q) :
    RAddsP t (liftE t e >>= cont) C Q := by
  cases e with
  | ok a =>
    rw [show liftE t (Except.ok a) = Except.ok a from rfl, ebind_ok]
    exact hok a rfl
  | error m =>
    rw [show liftE t (Except.error m) = Except.error (PErr.exc m, t) from rfl,
      ebind_err]
    exact Adds_refl t C Q

lemma RAddsP_foldlM {α σ : Type} {C Q : List String → Prop}
    {f : σ × Trace → α → Except (PErr × Trace) (σ × Trace)} {l : List α}
    (hf : ∀ s t1 x, x ∈ l → RAddsP t1 (f (s, t1) x) C Q) :
    ∀ s t, RAddsP t (l.foldlM f (s, t)) C Q := by
  induction l with
  | nil => intro s t; exact Adds_refl t C Q
  | cons a l ih =>
    intro s t
    rw [List.foldlM_cons]
    refine RAddsP_bindP (hf s t a (List.mem_cons_self a l)) ?_
    intro s1 t1 _
    exact ih (fun s2 t2 x hx => hf s2 t2 x (List.mem_cons_of_mem a hx)) s1 t1

lemma port_step_RAdds (w : World) (out : String) :
    ∀ t port, RAdds t (port_step w out t port) TrivP TrivP := by
  intro t port
  simp only [port_step]
  refine RAdds_liftE_bind ?_
  intro kvs _
  have hnet : ∀ t1 : Trace, RAdds t1
      (if jtruthyO (jget kvs "Network ID") = true then do
        let nid ← liftE t1 (asStrOE (jget kvs "Network ID"))
        pure (saveT (runT w ["openstack", "network", "show", nid] t1).1
          [out, "neutron", "network_" ++ nid ++ ".txt"]
          (runT w ["openstack", "network", "show", nid] t1).2)
      else pure t1) TrivP TrivP := by
    intro t1
    by_cases hb : jtruthyO (jget kvs "Network ID") = true
    · rw [if_pos hb]
      refine RAdds_liftE_bind ?_
      intro nid _
      exact RAdds_ok (Adds_trans
        (Adds_runT w _ ["openstack", "network", "show", nid] trivial)
        (Adds_saveT _ (runCmd w ["openstack", "network", "show", nid])
          [out, "neutron", "network_" ++ nid ++ ".txt"] trivial))
    · rw [if_neg hb]
      exact RAdds_ok (Adds_refl _ _ _)
  by_cases hbid : jtruthyO (jget kvs "ID") = true
  · rw [if_pos hbid]
    refine RAdds_liftE_bind ?_
    intro pid _
    simp only [epure, ebind_ok]
    refine RAdds_pre (Adds_trans
      (Adds_runT w _ ["openstack", "port", "show", pid] trivial)
      (Adds_saveT _ (runCmd w ["openstack", "port", "show", pid])
        [out, "neutron", "port_" ++ pid ++ ".txt"] trivial)) ?_
    exact hnet _
  · rw [if_neg hbid]
    simp only [epure, ebind_ok]
    exact hnet t

lemma ports_body_RAdds (w : World) (out vm : String) :
    ∀ t, RAdds t (ports_body w out vm t) TrivP TrivP := by
  intro t
  simp only [ports_body, runT]
  refine RAdds_pre
    (Adds_runT w t ["openstack", "port", "list", "--device-id", vm, "-f",
      "json"] trivial) ?_
  refine RAdds_liftE_bind ?_
  intro ports _
  refine RAdds_liftE_bind ?_
  intro portsL _
  exact RAdds_foldlM (fun t1 x _ => port_step_RAdds w out t1 x) _

lemma saas_port_step_RAdds (w : World) (out : String) :
    ∀ t port, RAdds t (saas_port_step w out t port) TrivP TrivP := by
  intro t port
  simp only [saas_port_step]
  refine RAdds_liftE_bind ?_
  intro kvs _
  have hnet : ∀ t1 : Trace, RAdds t1
      (if jtruthyO (jget kvs "Network ID") = true then do
        let nid ← liftE t1 (asStrOE (jget kvs "Network ID"))
        pure (saveT (runT w ["openstack", "network", "show", nid] t1).1
          [out, "neutron", "network_" ++ nid ++ ".txt"]
          (runT w ["openstack", "network", "show", nid] t1).2)
      else pure t1) TrivP TrivP := by
    intro t1
    by_cases hb : jtruthyO (jget kvs "Network ID") = true
    · rw [if_pos hb]
      refine RAdds_liftE_bind ?_
      intro nid _
      exact RAdds_ok (Adds_trans
        (Adds_runT w _ ["openstack", "network", "show", nid] trivial)
        (Adds_saveT _ (runCmd w ["openstack", "network", "show", nid])
          [out, "neutron", "network_" ++ nid ++ ".txt"] trivial))
    · rw [if_neg hb]
      exact RAdds_ok (Adds_refl _ _ _)
  by_cases hbid : jtruthyO (jget kvs "ID") = true
  · rw [if_pos hbid]
    refine RAdds_liftE_bind ?_
    intro pid _
    simp only [epure, ebind_ok]
    refine RAdds_pre (Adds_trans
      (Adds_runT w _ ["openstack", "port", "show", pid] trivial)
      (Adds_trans
        (Adds_saveT _ (runCmd w ["openstack", "port", "show", pid])
          [out, "neutron", "port_" ++ pid ++ ".txt"] trivial)
        (Adds_trans
          (Adds_runT w _ ["openstack", "port", "show", pid, "-f", "json"]
            trivial)
          (Adds_saveT _
            (runCmd w ["openstack", "port", "show", pid, "-f", "json"])
            [out, "neutron", "port_" ++ pid ++ ".json"] trivial)))) ?_
    exact hnet _
  · rw [if_neg hbid]
    simp only [epure, ebind_ok]
    exact hnet t

lemma saas_ports_body_RAdds (w : World) (out vm : String) :
    ∀ t, RAdds t (saas_ports_body w out vm t) TrivP TrivP := by
  intro t
  simp only [saas_ports_body, runT]
  refine RAdds_pre
    (Adds_runT w t ["openstack", "port", "list", "--device-id", vm, "-f",
      "json"] trivial) ?_
  refine RAdds_liftE_bind ?_
  intro ports _
  refine RAdds_liftE_bind ?_
  intro portsL _
  exact RAdds_foldlM (fun t1 x _ => saas_port_step_RAdds w out t1 x) _

lemma volumes_body_RAdds (w : World) (out vm : String) :
    ∀ t, RAdds t (volumes_body w out vm t) TrivP TrivP := by
  intro t
  simp only [volumes_body, runT]
  refine RAdds_pre
    (Adds_runT w t ["openstack", "server", "show", vm, "-f", "json"]
      trivial) ?_
  refine RAdds_liftE_bind ?_
  intro vmJson _
  refine RAdds_liftE_bind ?_
  intro kvs _
  refine RAdds_pre
    (Adds_saveT _ (w.jsonDumps ((jget kvs
      "os-extended-volumes:volumes_attached").getD (Json.arr [])))
      [out, "cinder", "attached_volumes.txt"] trivial) ?_
  refine RAdds_liftE_bind ?_
  intro volsL _
  refine RAdds_foldlM ?_ _
  intro t1 vol _
  refine RAdds_liftE_bind ?_
  intro vkvs _
  by_cases hb : jtruthyO (jget vkvs "id") = true
  · rw [if_pos hb]
    refine RAdds_liftE_bind ?_
    intro vid _
    exact RAdds_ok (Adds_trans
      (Adds_runT w _ ["openstack", "volume", "show", vid] trivial)
      (Adds_saveT _ (runCmd w ["openstack", "volume", "show", vid])
        [out, "cinder", "volume_" ++ vid ++ ".txt"] trivial))
  · rw [if_neg hb]
    exact RAdds_ok (Adds_refl _ _ _)

lemma stack_try_RAdds (w : World) (out sid : String) :
    ∀ t, RAdds t (stack_try w out sid t) TrivP TrivP := by
  intro t
  simp only [stack_try, runT]
  refine RAdds_pre
    (Adds_runT w t ["openstack", "stack", "resource", "list", sid, "-f",
      "json"] trivial) ?_
  refine RAdds_liftE_bind ?_
  intro resources _
  refine RAdds_liftE_bind ?_
  intro resL _
  refine RAdds_foldlM ?_ _
  intro t1 res _
  refine RAdds_liftE_bind ?_
  intro kvs _
  by_cases hb : jtruthyO (jget kvs "resource_name") = true
  · rw [if_pos hb]
    refine RAdds_liftE_bind ?_
    intro rn _
    exact RAdds_ok (Adds_trans
      (Adds_runT w _ ["openstack", "stack", "resource", "show", sid, rn]
        trivial)
      (Adds_saveT _
        (runCmd w ["openstack", "stack", "resource", "show", sid, rn])
        [out, "heat", "resource_" ++ rn ++ ".txt"] trivial))
  · rw [if_neg hb]
    exact RAdds_ok (Adds_refl _ _ _)

lemma saas_sg_inner_Adds (w : World) (out pid pjs : String)
    (sgIds : List Json) (t : Trace) :
    Adds t (saas_sg_inner w out pid pjs sgIds t).2 TrivP TrivP := by
  obtain ⟨hc, ⟨nl, hl⟩, _⟩ := saas_sg_inner_spec w out pid pjs sgIds t
  exact ⟨⟨[], by rw [hc, List.append_nil], by simp⟩, ⟨nl, hl⟩,
    fun p hq => absurd trivial hq⟩

lemma saas_sg_port_step_RAddsP (w : World) (out : String) :
    ∀ sgIds t port, RAddsP t (saas_sg_port_step w out (sgIds, t) port)
      TrivP TrivP := by
  intro sgIds t port
  simp only [saas_sg_port_step]
  refine RAddsP_liftE_bind ?_
  intro kvs _
  by_cases hb : (!(jtruthyO (jget kvs "ID"))) = true
  · rw [if_pos hb]
    exact RAddsP_ok sgIds (Adds_refl _ _ _)
  · rw [if_neg hb]
    refine RAddsP_liftE_bind ?_
    intro pid _
    simp only [runT, epure]
    exact RAddsP_pre
      (Adds_runT w t ["openstack", "port", "show", pid, "-f", "json"] trivial)
      (saas_sg_inner_Adds w out pid
        (runCmd w ["openstack", "port", "show", pid, "-f", "json"]) sgIds
        { t with cmds := t.cmds ++ [["openstack", "port", "show", pid, "-f",
          "json"]] })

lemma pcd_sg_port_step_RAddsP (w : World) :
    ∀ sgIds t port, RAddsP t (pcd_sg_port_step w (sgIds, t) port)
      TrivP TrivP := by
  intro sgIds t port
  simp only [pcd_sg_port_step]
  refine RAddsP_liftE_bind ?_
  intro kvs _
  cases hsgs : (if jtruthyO (jget kvs "Security Group") = true then
      jget kvs "Security Group" else jget kvs "Security Groups") with
  | none => simp only [hsgs]; exact RAddsP_ok sgIds (Adds_refl _ _ _)
  | some v =>
    cases v with
    | arr l => simp only [hsgs]; exact RAddsP_ok _ (Adds_refl _ _ _)
    | str s =>
      simp only [hsgs]
      by_cases hb : (s.data.head? == some '[') = true
      · rw [if_pos hb]
        refine RAddsP_liftE_bind ?_
        intro parsed _
        refine RAddsP_liftE_bind ?_
        intro elems _
        exact RAddsP_ok _ (Adds_refl _ _ _)
      · rw [if_neg hb]
        exact RAddsP_ok sgIds (Adds_refl _ _ _)
    | num n => simp only [hsgs]; exact RAddsP_ok sgIds (Adds_refl _ _ _)
    | bool b => simp only [hsgs]; exact RAddsP_ok sgIds (Adds_refl _ _ _)
    | null => simp only [hsgs]; exact RAddsP_ok sgIds (Adds_refl _ _ _)
    | obj o => simp only [hsgs]; exact RAddsP_ok sgIds (Adds_refl _ _ _)

lemma pcd_sg_body_RAdds (w : World) (out vm : String) :
    ∀ t, RAdds t (pcd_sg_body w out vm t) TrivP TrivP := by
  intro t
  simp only [pcd_sg_body, runT]
  refine RAdds_pre
    (Adds_runT w t ["openstack", "port", "list", "--device-id", vm, "-f",
      "json"] trivial) ?_
  refine RAdds_liftE_bind ?_
  intro ports _
  refine RAdds_liftE_bind ?_
  intro portsL _
  refine RAddsP_bind
    (RAddsP_foldlM (fun s t1 x _ => pcd_sg_port_step_RAddsP w s t1 x) _ _) ?_
  intro sgIds t1 _
  exact RAdds_foldlM (fun t2 x _ => sg_fetch_RAdds w out t2 x) t1

lemma saas_sg_body_RAdds (w : World) (out vm : String) :
    ∀ t, RAdds t (saas_sg_body w out vm t) TrivP TrivP := by
  intro t
  simp only [saas_sg_body, runT]
  refine RAdds_pre
    (Adds_runT w t ["openstack", "port", "list", "--device-id", vm, "-f",
      "json"] trivial) ?_
  refine RAdds_liftE_bind ?_
  intro ports _
  refine RAdds_liftE_bind ?_
  intro portsL _
  refine RAddsP_bind
    (RAddsP_foldlM (fun s t1 x _ => saas_sg_port_step_RAddsP w out s t1 x) _ _)
    ?_
  intro sgIds t1 _
  refine RAdds_pre (show Adds t1
    (if sgIds.isEmpty then
      logT "[WARN] No security groups found on any VM ports." t1
    else logT "[INFO] Found unique security groups for VM." t1)
      TrivP TrivP from ?_) ?_
  · cases sgIds.isEmpty with
    | true => exact Adds_logT t1 _ _ _
    | false => exact Adds_logT t1 _ _ _
  · exact RAdds_foldlM (fun t2 x _ => sg_fetch_RAdds w out t2 x) _

lemma collect_ports_for_vm_ok (w : World) (out vm : String) :
    ∀ t, ∃ t2, collect_ports_for_vm w out vm t = Except.ok t2 := by
  intro t
  simp only [collect_ports_for_vm, runT]
  obtain ⟨t2, he, _, _⟩ := catchExc_logT_ok (ports_body_RAdds w out vm _)
  exact ⟨t2, he⟩

lemma saas_collect_ports_for_vm_ok (w : World) (out vm : String) :
    ∀ t, ∃ t2, saas_collect_ports_for_vm w out vm t = Except.ok t2 := by
  intro t
  simp only [saas_collect_ports_for_vm, runT]
  obtain ⟨t2, he, _, _⟩ := catchExc_logT_ok (saas_ports_body_RAdds w out vm _)
  exact ⟨t2, he⟩

lemma collect_volumes_for_vm_ok (w : World) (out vm : String) :
    ∀ t, ∃ t2, collect_volumes_for_vm w out vm t = Except.ok t2 := by
  intro t
  simp only [collect_volumes_for_vm]
  obtain ⟨t2, he, _, _⟩ := catchExc_logT_ok (volumes_body_RAdds w out vm _)
  exact ⟨t2, he⟩

lemma collect_security_groups_for_vm_ok (w : World) (out vm : String) :
    ∀ t, ∃ t2, collect_security_groups_for_vm w out vm t = Except.ok t2 := by
  intro t
  simp only [collect_security_groups_for_vm]
  obtain ⟨t2, he, _, _⟩ := catchExc_logT_ok (pcd_sg_body_RAdds w out vm _)
  exact ⟨t2, he⟩

lemma saas_collect_security_groups_for_vm_ok (w : World) (out vm : String) :
    ∀ t, ∃ t2, saas_collect_security_groups_for_vm w out vm t =
      Except.ok t2 := by
  intro t
  simp only [saas_collect_security_groups_for_vm]
  obtain ⟨t2, he, _, _⟩ := catchExc_logT_ok (saas_sg_body_RAdds w out vm _)
  exact ⟨t2, he⟩

lemma collect_stack_info_ok (w : World) (out sid : String) :
    ∀ t, ∃ t2, collect_stack_info w out sid t = Except.ok t2 := by
  intro t
  simp only [collect_stack_info, runT]
  obtain ⟨t2, he, _, _⟩ := catchExc_logT_ok (stack_try_RAdds w out sid _)
  exact ⟨t2, he⟩

lemma exbind_isOk {step : Except (PErr × Trace) Trace}
    {cont : Trace → Except (PErr × Trace) Trace}
    (h1 : ∃ t1, step = Except.ok t1)
    (h2 : ∀ t1, ∃ t2, cont t1 = Except.ok t2) :
    ∃ t2, step.bind cont = Except.ok t2 := by
  obtain ⟨t1, e1⟩ := h1
  obtain ⟨t2, e2⟩ := h2 t1
  exact ⟨t2, by rw [e1, exbind_ok, e2]⟩

lemma pcd_vm_stage_ok {w : World} {a : Args} (hpods : PodsOK w a.nspace)
    (hvm : VmOK w (a.vm.getD "")) :
    ∀ t, ∃ t2, pcd_vm_stage w a t = Except.ok t2 := by
  intro t
  rw [pcd_vm_stage]
  by_cases hb : argTruthy a.vm = true
  · rw [if_pos hb]
    simp only []
    obtain ⟨ti, hi⟩ := collect_image_and_flavor_ok
      (collect_nova_info_VmDataOK hvm a.output t) w a.output
      (collect_nova_info w a.output (a.vm.getD "") t).1
    refine exbind_isOk ⟨ti, hi⟩ ?_
    intro t1
    refine exbind_isOk (collect_ports_for_vm_ok w a.output _ t1) ?_
    intro t2
    refine exbind_isOk (collect_volumes_for_vm_ok w a.output _ t2) ?_
    intro t3
    refine exbind_isOk (collect_security_groups_for_vm_ok w a.output _ t3) ?_
    intro t4
    refine foldlM_ok ?_ t4
    intro t5 comp _
    exact collect_pod_logs_ok hpods a.output comp t5
  · rw [if_neg hb]
    exact ⟨_, rfl⟩

lemma pcd_network_stage_ok {w : World} {a : Args} (hpods : PodsOK w a.nspace) :
    ∀ t, ∃ t2, pcd_network_stage w a t = Except.ok t2 := by
  intro t
  rw [pcd_network_stage]
  by_cases hb : argTruthy a.network = true
  · rw [if_pos hb]
    exact collect_pod_logs_ok hpods a.output "neutron" t
  · rw [if_neg hb]
    exact ⟨_, rfl⟩

lemma pcd_port_stage_ok {w : World} {a : Args} (hpods : PodsOK w a.nspace) :
    ∀ t, ∃ t2, pcd_port_stage w a t = Except.ok t2 := by
  intro t
  rw [pcd_port_stage]
  by_cases hb : argTruthy a.port = true
  · rw [if_pos hb]
    exact collect_pod_logs_ok hpods a.output "neutron" t
  · rw [if_neg hb]
    exact ⟨_, rfl⟩

lemma pcd_volume_stage_ok {w : World} {a : Args} (hpods : PodsOK w a.nspace) :
    ∀ t, ∃ t2, pcd_volume_stage w a t = Except.ok t2 := by
  intro t
  rw [pcd_volume_stage]
  by_cases hb : argTruthy a.volume = true
  · rw [if_pos hb]
    exact collect_pod_logs_ok hpods a.output "cinder" t
  · rw [if_neg hb]
    exact ⟨_, rfl⟩

lemma pcd_stack_stage_ok {w : World} {a : Args} (hpods : PodsOK w a.nspace) :
    ∀ t, ∃ t2, pcd_stack_stage w a t = Except.ok t2 := by
  intro t
  rw [pcd_stack_stage]
  by_cases hb : argTruthy a.stack = true
  · rw [if_pos hb]
    refine exbind_isOk (collect_stack_info_ok w a.output _ t) ?_
    intro t1
    exact collect_pod_logs_ok hpods a.output "heat" t1
  · rw [if_neg hb]
    exact ⟨_, rfl⟩

lemma pcd_user_stage_ok {w : World} {a : Args} (hpods : PodsOK w a.nspace) :
    ∀ t, ∃ t2, pcd_user_stage w a t = Except.ok t2 := by
  intro t
  rw [pcd_user_stage]
  by_cases hb : argTruthy a.user = true
  · rw [if_pos hb]
    exact collect_pod_logs_ok hpods a.output "keystone" _
  · rw [if_neg hb]
    exact ⟨_, rfl⟩

lemma pcd_final_stage_ok (w : World) (a : Args) :
    ∀ t, ∃ t2, pcd_final_stage w a t = Except.ok t2 := by
  intro t
  rw [pcd_final_stage]
  by_cases hz : a.zip = true
  · rw [if_pos hz]
    exact ⟨_, rfl⟩
  · rw [if_neg hz]
    exact ⟨_, rfl⟩

lemma saas_vm_stage_ok {w : World} {a : SArgs}
    (hvm : VmOK w (a.vm.getD "")) :
    ∀ t, ∃ t2, saas_vm_stage w a t = Except.ok t2 := by
  intro t
  rw [saas_vm_stage]
  by_cases hb : argTruthy a.vm = true
  · rw [if_pos hb]
    simp only []
    obtain ⟨ti, hi⟩ := collect_image_and_flavor_ok
      (saas_collect_nova_info_VmDataOK hvm a.output t) w a.output
      (saas_collect_nova_info w a.output (a.vm.getD "") t).1
    refine exbind_isOk ⟨ti, hi⟩ ?_
    intro t1
    refine exbind_isOk (saas_collect_ports_for_vm_ok w a.output _ t1) ?_
    intro t2
    refine exbind_isOk (collect_volumes_for_vm_ok w a.output _ t2) ?_
    intro t3
    exact saas_collect_security_groups_for_vm_ok w a.output _ t3
  · rw [if_neg hb]
    exact ⟨_, rfl⟩

lemma saas_stack_stage_ok (w : World) (a : SArgs) :
    ∀ t, ∃ t2, saas_stack_stage w a t = Except.ok t2 := by
  intro t
  rw [saas_stack_stage]
  by_cases hb : argTruthy a.stack = true
  · rw [if_pos hb]
    exact collect_stack_info_ok w a.output _ t
  · rw [if_neg hb]
    exact ⟨_, rfl⟩

lemma saas_final_stage_ok (w : World) (a : SArgs) :
    ∀ t, ∃ t2, saas_final_stage w a t = Except.ok t2 := by
  intro t
  rw [saas_final_stage]
  by_cases hz : a.zip = true
  · rw [if_pos hz]
    exact ⟨_, rfl⟩
  · rw [if_neg hz]
    exact ⟨_, rfl⟩

/-! ### C4: the exit-status policy of both entry points -/

lemma check_prerequisites_fail_kube {w : World} (ns : String) (t : Trace)
    (hk : w.kubeconfigExists = false) :
    ∃ t2, check_prerequisites w ns t = Except.error (PErr.exit 1, t2) ∧
      t2.cmds = t.cmds := by
  refine ⟨logT "[ERROR] Kubeconfig not found."
    (logT "[INFO] Checking prerequisites..." t), ?_, rfl⟩
  rw [check_prerequisites]
  simp [hk]

lemma check_prerequisites_fail_ctx {w : World} (ns : String) (t : Trace)
    (hk : w.kubeconfigExists = true)
    (hc : strContains (runCmd w ["kubectl", "config", "current-context"])
      "ERROR" = true) :
    ∃ t2, check_prerequisites w ns t = Except.error (PErr.exit 1, t2) ∧
      t2.cmds = t.cmds ++ [["kubectl", "config", "current-context"]] := by
  refine ⟨logT "[ERROR] Unable to access Kubernetes context."
    (runT w ["kubectl", "config", "current-context"]
      (logT "[INFO] Checking prerequisites..." t)).2, ?_, rfl⟩
  rw [check_prerequisites]
  simp [hk, hc, runT]

lemma check_prerequisites_fail_ns {w : World} (ns : String) (t : Trace)
    (hk : w.kubeconfigExists = true)
    (hc : strContains (runCmd w ["kubectl", "config", "current-context"])
      "ERROR" = false)
    (hn : (strContains (runCmd w ["kubectl", "get", "ns", ns]) "NotFound" ||
      strContains (runCmd w ["kubectl", "get", "ns", ns]) "Error" ||
      strContains (runCmd w ["kubectl", "get", "ns", ns]) "ERROR") = true) :
    ∃ t2, check_prerequisites w ns t = Except.error (PErr.exit 1, t2) ∧
      t2.cmds = t.cmds ++ [["kubectl", "config", "current-context"],
        ["kubectl", "get", "ns", ns]] := by
  refine ⟨logT "[ERROR] Namespace is not accessible."
    (runT w ["kubectl", "get", "ns", ns]
      (runT w ["kubectl", "config", "current-context"]
        (logT "[INFO] Checking prerequisites..." t)).2).2, ?_,
    by simp [runT, logT]⟩
  rw [check_prerequisites]
  simp [hk, hc, hn, runT]

lemma check_prerequisites_pass {w : World} {ns : String} (t : Trace)
    (hk : w.kubeconfigExists = true)
    (hc : strContains (runCmd w ["kubectl", "config", "current-context"])
      "ERROR" = false)
    (hn : (strContains (runCmd w ["kubectl", "get", "ns", ns]) "NotFound" ||
      strContains (runCmd w ["kubectl", "get", "ns", ns]) "Error" ||
      strContains (runCmd w ["kubectl", "get", "ns", ns]) "ERROR") = false) :
    check_prerequisites w ns t = Except.ok (logT "[OK] Prerequisites met."
      (runT w ["kubectl", "get", "ns", ns]
        (runT w ["kubectl", "config", "current-context"]
          (logT "[INFO] Checking prerequisites..." t)).2).2) := by
  rw [check_prerequisites]
  simp [hk, hc, hn, runT]

lemma check_openstack_auth_fail {w : World} (t : Trace)
    (hd : (strContains (runCmd w ["openstack", "token", "issue"]) "ERROR" ||
      strContains (runCmd w ["openstack", "token", "issue"]) "Missing") = true) :
    ∃ t2, check_openstack_auth w t = Except.error (PErr.exit 1, t2) ∧
      t2.cmds = t.cmds ++ [["openstack", "token", "issue"]] := by
  refine ⟨logT "[ERROR] OpenStack CLI is not authenticated."
    (runT w ["openstack", "token", "issue"]
      (logT "[INFO] Checking OpenStack authentication..." t)).2, ?_, rfl⟩
  rw [check_openstack_auth]
  simp [hd, runT]

lemma check_openstack_auth_pass {w : World} (t : Trace)
    (hd : (strContains (runCmd w ["openstack", "token", "issue"]) "ERROR" ||
      strContains (runCmd w ["openstack", "token", "issue"]) "Missing")
        = false) :
    check_openstack_auth w t = Except.ok
      (logT "[OK] OpenStack authentication validated."
        (runT w ["openstack", "token", "issue"]
          (logT "[INFO] Checking OpenStack authentication..." t)).2) := by
  rw [check_openstack_auth]
  simp [hd, runT]

lemma saas_auth_env_fail {w : World} (t : Trace)
    (hv : ∃ v ∈ ["OS_AUTH_URL", "OS_USERNAME", "OS_PROJECT_NAME"],
      envTruthy (w.envVar v) = false) :
    ∃ t2, saas_check_openstack_auth w t = Except.error (PErr.exit 1, t2) ∧
      t2.cmds = t.cmds := by
  obtain ⟨v, hmem, hfalse⟩ := hv
  have hvm : v ∈ ["OS_AUTH_URL", "OS_USERNAME", "OS_PROJECT_NAME"].filter
      (fun v => !(envTruthy (w.envVar v))) :=
    List.mem_filter.mpr ⟨hmem, by rw [hfalse]; rfl⟩
  have hne : (["OS_AUTH_URL", "OS_USERNAME", "OS_PROJECT_NAME"].filter
      (fun v => !(envTruthy (w.envVar v)))).isEmpty = false := by
    cases he : ["OS_AUTH_URL", "OS_USERNAME", "OS_PROJECT_NAME"].filter
        (fun v => !(envTruthy (w.envVar v))) with
    | nil => rw [he] at hvm; exact absurd hvm (List.not_mem_nil v)
    | cons a l => rfl
  refine ⟨logT "[HINT] Please source your OpenStack RC file"
    (logT "[ERROR] Missing environment variables"
      (logT "[INFO] Checking OpenStack authentication..." t)), ?_, rfl⟩
  rw [saas_check_openstack_auth]
  simp [hne]

lemma saas_auth_token_fail {w : World} (t : Trace)
    (hA : envTruthy (w.envVar "OS_AUTH_URL") = true)
    (hB : envTruthy (w.envVar "OS_USERNAME") = true)
    (hC : envTruthy (w.envVar "OS_PROJECT_NAME") = true)
    (hd : (strContains (runCmd w ["openstack", "token", "issue"]) "ERROR" ||
      strContains (runCmd w ["openstack", "token", "issue"]) "Missing" ||
      strContains (runCmd w ["openstack", "token", "issue"]) "Failed")
        = true) :
    ∃ t2, saas_check_openstack_auth w t = Except.error (PErr.exit 1, t2) ∧
      t2.cmds = t.cmds ++ [["openstack", "token", "issue"]] := by
  refine ⟨logT "[HINT] Please ensure your RC file is sourced"
    (logT "[ERROR] Unable to authenticate with OpenStack."
      (runT w ["openstack", "token", "issue"]
        (logT "[INFO] Checking OpenStack authentication..." t)).2), ?_, rfl⟩
  rw [saas_check_openstack_auth]
  simp [List.filter, hA, hB, hC, hd, runT]

lemma saas_auth_pass {w : World} (t : Trace)
    (hA : envTruthy (w.envVar "OS_AUTH_URL") = true)
    (hB : envTruthy (w.envVar "OS_USERNAME") = true)
    (hC : envTruthy (w.envVar "OS_PROJECT_NAME") = true)
    (hd : (strContains (runCmd w ["openstack", "token", "issue"]) "ERROR" ||
      strContains (runCmd w ["openstack", "token", "issue"]) "Missing" ||
      strContains (runCmd w ["openstack", "token", "issue"]) "Failed")
        = false) :
    saas_check_openstack_auth w t = Except.ok
      (logT "[OK] OpenStack authentication validated."
        (runT w ["openstack", "token", "issue"]
          (logT "[INFO] Checking OpenStack authentication..." t)).2) := by
  rw [saas_check_openstack_auth]
  simp [List.filter, hA, hB, hC, hd, runT]

lemma pcd_main_run_ok {w : World} {a : Args}
    (hk : w.kubeconfigExists = true)
    (hc : strContains (runCmd w ["kubectl", "config", "current-context"])
      "ERROR" = false)
    (hn : (strContains (runCmd w ["kubectl", "get", "ns", a.nspace]) "NotFound" ||
      strContains (runCmd w ["kubectl", "get", "ns", a.nspace]) "Error" ||
      strContains (runCmd w ["kubectl", "get", "ns", a.nspace]) "ERROR") = false)
    (hd : (strContains (runCmd w ["openstack", "token", "issue"]) "ERROR" ||
      strContains (runCmd w ["openstack", "token", "issue"]) "Missing") = false)
    (hpods : PodsOK w a.nspace) (hvm : VmOK w (a.vm.getD "")) :
    ∃ t2, pcd_main_run w a = Except.ok t2 := by
  rw [pcd_main_run]
  refine exbind_isOk ⟨_, check_prerequisites_pass _ hk hc hn⟩ ?_
  intro t1
  refine exbind_isOk ⟨_, check_openstack_auth_pass _ hd⟩ ?_
  intro t2
  refine exbind_isOk (pcd_vm_stage_ok hpods hvm _) ?_
  intro t3
  refine exbind_isOk (pcd_network_stage_ok hpods _) ?_
  intro t4
  refine exbind_isOk (pcd_port_stage_ok hpods _) ?_
  intro t5
  refine exbind_isOk (pcd_volume_stage_ok hpods _) ?_
  intro t6
  refine exbind_isOk (pcd_stack_stage_ok hpods _) ?_
  intro t7
  refine exbind_isOk (pcd_user_stage_ok hpods _) ?_
  intro t8
  exact pcd_final_stage_ok w a t8

lemma saas_main_run_ok {w : World} {a : SArgs}
    (hA : envTruthy (w.envVar "OS_AUTH_URL") = true)
    (hB : envTruthy (w.envVar "OS_USERNAME") = true)
    (hC : envTruthy (w.envVar "OS_PROJECT_NAME") = true)
    (hd : (strContains (runCmd w ["openstack", "token", "issue"]) "ERROR" ||
      strContains (runCmd w ["openstack", "token", "issue"]) "Missing" ||
      strContains (runCmd w ["openstack", "token", "issue"]) "Failed") = false)
    (hvm : VmOK w (a.vm.getD "")) :
    ∃ t2, saas_main_run w a = Except.ok t2 := by
  rw [saas_main_run]
  refine exbind_isOk ⟨_, saas_auth_pass _ hA hB hC hd⟩ ?_
  intro t1
  refine exbind_isOk (saas_vm_stage_ok hvm _) ?_
  intro t2
  refine exbind_isOk (saas_stack_stage_ok w a _) ?_
  intro t3
  exact saas_final_stage_ok w a _

/-- **C4** (amended).  Exit-status policy of both entry points.  For
`pcddebugger.py`: a missing kubeconfig, an unreachable cluster context, an
inaccessible namespace, or a failed token issue each terminate the run
immediately with exit status 1 (the recorded command list shows nothing
beyond the failed check ran); when all four checks pass and every
successfully parsed pod listing and server detail has the shape the
collectors expect, the process exits 0 — however many individual commands
return the ERROR sentinel or JSON parses fail, since those are absorbed
by the collectors.  For `saasdebugger.py`: a missing required environment
variable or a failed token issue exits 1 immediately, and a run whose
checks pass with well-shaped server details exits 0.  (The original
claim's unconditional "exits zero whenever the checks pass" is refuted by
`exit_status_policy_cex`: a pod listing that parses to a document without
an `items` key raises an uncaught `KeyError` after the checks passed.) -/
theorem exit_status_policy :
    (∀ (w : World) (a : Args), w.kubeconfigExists = false →
      pcd_main w a = 1 ∧ (traceOf (pcd_main_run w a)).cmds = []) ∧
    (∀ (w : World) (a : Args), w.kubeconfigExists = true →
      strContains (runCmd w ["kubectl", "config", "current-context"])
        "ERROR" = true →
      pcd_main w a = 1 ∧ (traceOf (pcd_main_run w a)).cmds =
        [["kubectl", "config", "current-context"]]) ∧
    (∀ (w : World) (a : Args), w.kubeconfigExists = true →
      strContains (runCmd w ["kubectl", "config", "current-context"])
        "ERROR" = false →
      (strContains (runCmd w ["kubectl", "get", "ns", a.nspace]) "NotFound" ||
       strContains (runCmd w ["kubectl", "get", "ns", a.nspace]) "Error" ||
       strContains (runCmd w ["kubectl", "get", "ns", a.nspace]) "ERROR")
        = true →
      pcd_main w a = 1 ∧ (traceOf (pcd_main_run w a)).cmds =
        [["kubectl", "config", "current-context"],
         ["kubectl", "get", "ns", a.nspace]]) ∧
    (∀ (w : World) (a : Args), w.kubeconfigExists = true →
      strContains (runCmd w ["kubectl", "config", "current-context"])
        "ERROR" = false →
      (strContains (runCmd w ["kubectl", "get", "ns", a.nspace]) "NotFound" ||
       strContains (runCmd w ["kubectl", "get", "ns", a.nspace]) "Error" ||
       strContains (runCmd w ["kubectl", "get", "ns", a.nspace]) "ERROR")
        = false →
      (strContains (runCmd w ["openstack", "token", "issue"]) "ERROR" ||
       strContains (runCmd w ["openstack", "token", "issue"]) "Missing")
        = true →
      pcd_main w a = 1 ∧ (traceOf (pcd_main_run w a)).cmds =
        [["kubectl", "config", "current-context"],
         ["kubectl", "get", "ns", a.nspace],
         ["openstack", "token", "issue"]]) ∧
    (∀ (w : World) (a : Args), w.kubeconfigExists = true →
      strContains (runCmd w ["kubectl", "config", "current-context"])
        "ERROR" = false →
      (strContains (runCmd w ["kubectl", "get", "ns", a.nspace]) "NotFound" ||
       strContains (runCmd w ["kubectl", "get", "ns", a.nspace]) "Error" ||
       strContains (runCmd w ["kubectl", "get", "ns", a.nspace]) "ERROR")
        = false →
      (strContains (runCmd w ["openstack", "token", "issue"]) "ERROR" ||
       strContains (runCmd w ["openstack", "token", "issue"]) "Missing")
        = false →
      PodsOK w a.nspace → VmOK w (a.vm.getD "") →
      pcd_main w a = 0) ∧
    (∀ (w : World) (a : SArgs),
      (∃ v ∈ ["OS_AUTH_URL", "OS_USERNAME", "OS_PROJECT_NAME"],
        envTruthy (w.envVar v) = false) →
      saas_main w a = 1 ∧ (traceOf (saas_main_run w a)).cmds = []) ∧
    (∀ (w : World) (a : SArgs),
      envTruthy (w.envVar "OS_AUTH_URL") = true →
      envTruthy (w.envVar "OS_USERNAME") = true →
      envTruthy (w.envVar "OS_PROJECT_NAME") = true →
      (strContains (runCmd w ["openstack", "token", "issue"]) "ERROR" ||
       strContains (runCmd w ["openstack", "token", "issue"]) "Missing" ||
       strContains (runCmd w ["openstack", "token", "issue"]) "Failed")
        = true →
      saas_main w a = 1 ∧ (traceOf (saas_main_run w a)).cmds =
        [["openstack", "token", "issue"]]) ∧
    (∀ (w : World) (a : SArgs),
      envTruthy (w.envVar "OS_AUTH_URL") = true →
      envTruthy (w.envVar "OS_USERNAME") = true →
      envTruthy (w.envVar "OS_PROJECT_NAME") = true →
      (strContains (runCmd w ["openstack", "token", "issue"]) "ERROR" ||
       strContains (runCmd w ["openstack", "token", "issue"]) "Missing" ||
       strContains (runCmd w ["openstack", "token", "issue"]) "Failed")
        = false →
      VmOK w (a.vm.getD "") →
      saas_main w a = 0) := by
  refine ⟨?_, ?_, ?_, ?_, ?_, ?_, ?_, ?_⟩
  · intro w a hk
    obtain ⟨t2, he, hcm⟩ :=
      check_prerequisites_fail_kube a.nspace (mkdirT [a.output] Trace.empty) hk
    constructor
    · rw [pcd_main, pcd_main_run, he]
      rfl
    · rw [pcd_main_run, he]
      exact hcm
  · intro w a hk hc
    obtain ⟨t2, he, hcm⟩ :=
      check_prerequisites_fail_ctx a.nspace (mkdirT [a.output] Trace.empty)
        hk hc
    constructor
    · rw [pcd_main, pcd_main_run, he]
      rfl
    · rw [pcd_main_run, he]
      exact hcm
  · intro w a hk hc hn
    obtain ⟨t2, he, hcm⟩ :=
      check_prerequisites_fail_ns a.nspace (mkdirT [a.output] Trace.empty)
        hk hc hn
    constructor
    · rw [pcd_main, pcd_main_run, he]
      rfl
    · rw [pcd_main_run, he]
      exact hcm
  · intro w a hk hc hn hd
    have hp := check_prerequisites_pass (mkdirT [a.output] Trace.empty) hk hc hn
    obtain ⟨t2, he, hcm⟩ := check_openstack_auth_fail
      (logT "[OK] Prerequisites met."
        (runT w ["kubectl", "get", "ns", a.nspace]
          (runT w ["kubectl", "config", "current-context"]
            (logT "[INFO] Checking prerequisites..."
              (mkdirT [a.output] Trace.empty))).2).2) hd
    constructor
    · rw [pcd_main, pcd_main_run, hp, exbind_ok, he]
      rfl
    · rw [pcd_main_run, hp, exbind_ok, he]
      exact hcm
  · intro w a hk hc hn hd hpods hvm
    obtain ⟨t2, h⟩ := pcd_main_run_ok hk hc hn hd hpods hvm
    rw [pcd_main, h]
    rfl
  · intro w a hv
    obtain ⟨t2, he, hcm⟩ :=
      saas_auth_env_fail (mkdirT [a.output] Trace.empty) hv
    constructor
    · rw [saas_main, saas_main_run, he]
      rfl
    · rw [saas_main_run, he]
      exact hcm
  · intro w a hA hB hC hd
    obtain ⟨t2, he, hcm⟩ :=
      saas_auth_token_fail (mkdirT [a.output] Trace.empty) hA hB hC hd
    constructor
    · rw [saas_main, saas_main_run, he]
      rfl
    · rw [saas_main_run, he]
      exact hcm
  · intro w a hA hB hC hd hvm
    obtain ⟨t2, h⟩ := saas_main_run_ok hA hB hC hd hvm
    rw [saas_main, h]
    rfl

/-- A world with no kubeconfig file. -/
def wPre : World :=
  { kubeconfigExists := false
    envVar := fun _ => some "x"
    run := fun _ => { exitCode := 0, stdout := "ok", stderr := "" }
    jsonParse := fun _ => none
    jsonDumps := fun _ => ""
    now := "T" }

/-- A benign world: every command succeeds with a harmless output, every
required environment variable is set, and no output parses as JSON. -/
def wGood : World :=
  { kubeconfigExists := true
    envVar := fun _ => some "x"
    run := fun _ => { exitCode := 0, stdout := "ok", stderr := "" }
    jsonParse := fun _ => none
    jsonDumps := fun _ => ""
    now := "T" }

/-- A flagless argument vector for `pcddebugger.py`. -/
def aGood : Args :=
  { nspace := "n", output := "o", vm := none, network := none, port := none
    volume := none, zip := false, stack := none, user := none }

/-- A flagless argument vector for `saasdebugger.py`. -/
def saGood : SArgs :=
  { output := "o", vm := none, network := none, port := none
    volume := none, zip := false, stack := none, user := none }

/-- Witness for `exit_status_policy` at concrete worlds: the missing
kubeconfig exits 1 with no command run, and both scripts exit 0 in the
benign world. -/
theorem exit_status_policy_witness :
    (pcd_main wPre aGood = 1 ∧ (traceOf (pcd_main_run wPre aGood)).cmds = []) ∧
    pcd_main wGood aGood = 0 ∧ saas_main wGood saGood = 0 := by
  obtain ⟨h1, _, _, _, h5, _, _, h8⟩ := exit_status_policy
  refine ⟨h1 wPre aGood rfl, ?_, ?_⟩
  · exact h5 wGood aGood rfl (by decide) (by decide) (by decide)
      (fun j hj => Option.noConfusion hj) (fun j hj => Option.noConfusion hj)
  · exact h8 wGood saGood rfl rfl rfl (by decide)
      (fun j hj => Option.noConfusion hj)

/-- A world in which every check passes but the pod listing of namespace
`n` parses to a JSON document with no `items` key. -/
def wBadShape : World :=
  { kubeconfigExists := true
    envVar := fun _ => some "x"
    run := fun c => if c == podsCmd "n" then
        { exitCode := 0, stdout := "PODS", stderr := "" }
      else { exitCode := 0, stdout := "ok", stderr := "" }
    jsonParse := fun s => if s == "PODS" then some (Json.obj []) else none
    jsonDumps := fun _ => ""
    now := "T" }

/-- The argument vector `--namespace n --output o --network netid`. -/
def aNet : Args :=
  { nspace := "n", output := "o", vm := none, network := some "netid"
    port := none, volume := none, zip := false, stack := none, user := none }

/-- **C4** counterexample to the original claim: in `wBadShape` all four
prerequisite and authentication checks pass (first four conjuncts), the
run reaches the pod-listing command of the `--network` log collection
(fifth conjunct), yet the process exits 1, not 0: the parsed pod listing
lacks the `items` key, and the resulting `KeyError` is not caught by
`collect_pod_logs`, which handles only `json.JSONDecodeError`. -/
theorem exit_status_policy_cex :
    wBadShape.kubeconfigExists = true ∧
    strContains (runCmd wBadShape ["kubectl", "config", "current-context"])
      "ERROR" = false ∧
    (strContains (runCmd wBadShape ["kubectl", "get", "ns", "n"]) "NotFound" ||
     strContains (runCmd wBadShape ["kubectl", "get", "ns", "n"]) "Error" ||
     strContains (runCmd wBadShape ["kubectl", "get", "ns", "n"]) "ERROR")
      = false ∧
    (strContains (runCmd wBadShape ["openstack", "token", "issue"]) "ERROR" ||
     strContains (runCmd wBadShape ["openstack", "token", "issue"]) "Missing")
      = false ∧
    podsCmd "n" ∈ (traceOf (pcd_main_run wBadShape aNet)).cmds ∧
    pcd_main wBadShape aNet = 1 := by
  refine ⟨rfl, by decide, by decide, by decide, ?_, ?_⟩
  · decide
  · decide

/-! ### C8: the network/port/volume flags -/

/-- An argument vector whose executable is `kubectl`. -/
def isKubectl (c : List String) : Prop := c.head? = some "kubectl"

/-- A path inside the `logs/` or `describe/` category of the output
tree. -/
def inLogsDescribe (out : String) (p : List String) : Prop :=
  (∃ f, p = [out, "logs", f]) ∨ (∃ f, p = [out, "describe", f])

lemma processContainer_RAdds (w : World) (out ns sub pn : String) (cn : Json) :
    ∀ t, RAdds t (processContainer w out ns sub pn cn t)
      isKubectl (inLogsDescribe out) := by
  intro t
  simp only [processContainer]
  refine RAdds_liftE_bind ?_
  intro container _
  simp only [runT]
  by_cases hb : strContains (runCmd w ["kubectl", "logs", pn, "-n", ns, "-c",
      container, "--previous"]) "ERROR" = true
  · rw [if_pos hb]
    refine RAdds_ok ?_
    refine Adds_trans
      (Adds_runT w t ["kubectl", "logs", pn, "-n", ns, "-c", container] rfl) ?_
    refine Adds_trans
      (Adds_saveT _ (runCmd w ["kubectl", "logs", pn, "-n", ns, "-c",
          container])
        [out, "logs", sub ++ "_" ++ pn ++ "_" ++ container ++ ".log"]
        (Or.inl ⟨_, rfl⟩)) ?_
    exact Adds_runT w _ ["kubectl", "logs", pn, "-n", ns, "-c", container,
      "--previous"] rfl
  · rw [if_neg hb]
    refine RAdds_ok ?_
    refine Adds_trans
      (Adds_runT w t ["kubectl", "logs", pn, "-n", ns, "-c", container] rfl) ?_
    refine Adds_trans
      (Adds_saveT _ (runCmd w ["kubectl", "logs", pn, "-n", ns, "-c",
          container])
        [out, "logs", sub ++ "_" ++ pn ++ "_" ++ container ++ ".log"]
        (Or.inl ⟨_, rfl⟩)) ?_
    refine Adds_trans
      (Adds_runT w _ ["kubectl", "logs", pn, "-n", ns, "-c", container,
        "--previous"] rfl) ?_
    exact Adds_saveT _ (runCmd w ["kubectl", "logs", pn, "-n", ns, "-c",
        container, "--previous"])
      [out, "logs", sub ++ "_" ++ pn ++ "_" ++ container ++ "_previous.log"]
      (Or.inl ⟨_, rfl⟩)

lemma processPod_RAdds (w : World) (out ns sub : String) (pod : Json) :
    ∀ t, RAdds t (processPod w out ns sub pod t)
      isKubectl (inLogsDescribe out) := by
  intro t
  simp only [processPod]
  refine RAdds_liftE_bind ?_
  intro md _
  refine RAdds_liftE_bind ?_
  intro nmj _
  refine RAdds_liftE_bind ?_
  intro pn _
  refine RAdds_liftE_bind ?_
  intro spec _
  refine RAdds_liftE_bind ?_
  intro specKvs _
  refine RAdds_liftE_bind ?_
  intro containersL _
  refine RAdds_liftE_bind ?_
  intro cns _
  refine RAdds_bind
    (RAdds_foldlM (fun t1 cn _ => processContainer_RAdds w out ns sub pn cn t1)
      t) ?_
  intro t1 _
  simp only [runT]
  refine RAdds_ok ?_
  refine Adds_trans
    (Adds_runT w t1 ["kubectl", "describe", "pod", pn, "-n", ns] rfl) ?_
  exact Adds_saveT _ (runCmd w ["kubectl", "describe", "pod", pn, "-n", ns])
    [out, "describe", sub ++ "_" ++ pn ++ ".txt"] (Or.inr ⟨_, rfl⟩)

lemma collect_pod_logs_RAdds (w : World) (out ns sub : String) :
    ∀ t, RAdds t (collect_pod_logs w out ns sub t)
      isKubectl (inLogsDescribe out) := by
  intro t
  rw [collect_pod_logs]
  simp only [runT]
  refine RAdds_pre (Adds_trans
    (Adds_logT t ("[INFO] Collecting logs for: " ++ sub) isKubectl
      (inLogsDescribe out))
    (Adds_runT w (logT ("[INFO] Collecting logs for: " ++ sub) t)
      (podsCmd ns) rfl)) ?_
  cases hj : w.jsonParse (runCmd w (podsCmd ns)) with
  | none => exact RAdds_ok (Adds_logT _ _ _ _)
  | some pods =>
    simp only []
    refine RAdds_liftE_bind ?_
    intro items _
    refine RAdds_liftE_bind ?_
    intro itemsL _
    refine RAdds_liftE_bind ?_
    intro matched _
    exact RAdds_foldlM (fun t1 p _ => processPod_RAdds w out ns sub p t1) _

lemma pcd_network_stage_RAdds (w : World) (a : Args) :
    ∀ t, RAdds t (pcd_network_stage w a t) isKubectl
      (inLogsDescribe a.output) := by
  intro t
  rw [pcd_network_stage]
  by_cases hb : argTruthy a.network = true
  · rw [if_pos hb]
    exact collect_pod_logs_RAdds w a.output a.nspace "neutron" t
  · rw [if_neg hb]
    exact RAdds_ok (Adds_refl t _ _)

lemma pcd_port_stage_RAdds (w : World) (a : Args) :
    ∀ t, RAdds t (pcd_port_stage w a t) isKubectl
      (inLogsDescribe a.output) := by
  intro t
  rw [pcd_port_stage]
  by_cases hb : argTruthy a.port = true
  · rw [if_pos hb]
    exact collect_pod_logs_RAdds w a.output a.nspace "neutron" t
  · rw [if_neg hb]
    exact RAdds_ok (Adds_refl t _ _)

lemma pcd_volume_stage_RAdds (w : World) (a : Args) :
    ∀ t, RAdds t (pcd_volume_stage w a t) isKubectl
      (inLogsDescribe a.output) := by
  intro t
  rw [pcd_volume_stage]
  by_cases hb : argTruthy a.volume = true
  · rw [if_pos hb]
    exact collect_pod_logs_RAdds w a.output a.nspace "cinder" t
  · rw [if_neg hb]
    exact RAdds_ok (Adds_refl t _ _)

lemma pcd_network_stage_blind (w : World) (a : Args)
    (nv pv vv nv' pv' vv' : Option String)
    (h : argTruthy nv = argTruthy nv') :
    pcd_network_stage w { a with network := nv, port := pv, volume := vv } =
      pcd_network_stage w
        { a with network := nv', port := pv', volume := vv' } := by
  funext t
  show (if argTruthy nv = true then
      collect_pod_logs w a.output a.nspace "neutron" t else pure t) =
    (if argTruthy nv' = true then
      collect_pod_logs w a.output a.nspace "neutron" t else pure t)
  rw [h]

lemma pcd_port_stage_blind (w : World) (a : Args)
    (nv pv vv nv' pv' vv' : Option String)
    (h : argTruthy pv = argTruthy pv') :
    pcd_port_stage w { a with network := nv, port := pv, volume := vv } =
      pcd_port_stage w
        { a with network := nv', port := pv', volume := vv' } := by
  funext t
  show (if argTruthy pv = true then
      collect_pod_logs w a.output a.nspace "neutron" t else pure t) =
    (if argTruthy pv' = true then
      collect_pod_logs w a.output a.nspace "neutron" t else pure t)
  rw [h]

lemma pcd_volume_stage_blind (w : World) (a : Args)
    (nv pv vv nv' pv' vv' : Option String)
    (h : argTruthy vv = argTruthy vv') :
    pcd_volume_stage w { a with network := nv, port := pv, volume := vv } =
      pcd_volume_stage w
        { a with network := nv', port := pv', volume := vv' } := by
  funext t
  show (if argTruthy vv = true then
      collect_pod_logs w a.output a.nspace "cinder" t else pure t) =
    (if argTruthy vv' = true then
      collect_pod_logs w a.output a.nspace "cinder" t else pure t)
  rw [h]

/-- **C8**.  The `--network`, `--port` and `--volume` flags trigger only
log-category collection and never a lookup keyed on the supplied
identifier, and that collection writes nothing outside its categories.
First conjunct (`saasdebugger.py`): the whole run is literally unchanged
by any values of the three flags — `main` parses but never reads them, so
in that variant they trigger nothing at all.  Second conjunct
(`pcddebugger.py`): two runs whose three flag values agree in truthiness
are identical, whatever identifiers were supplied — so no command of the
run can mention the given network, port or volume id.  Third conjunct
(`pcddebugger.py`): each of the three flag blocks only ever executes
`kubectl`-headed commands (hence no `openstack network show`,
`port show` or `volume show`), never calls `sys.exit`, and leaves every
file outside the `logs/` and `describe/` categories of the output tree
untouched. -/
theorem flag_log_only :
    (∀ (w : World) (a : SArgs) (n p v : Option String),
      saas_main_run w { a with network := n, port := p, volume := v } =
        saas_main_run w a) ∧
    (∀ (w : World) (a : Args) (nv pv vv nv' pv' vv' : Option String),
      argTruthy nv = argTruthy nv' → argTruthy pv = argTruthy pv' →
      argTruthy vv = argTruthy vv' →
      pcd_main_run w { a with network := nv, port := pv, volume := vv } =
        pcd_main_run w
          { a with network := nv', port := pv', volume := vv' }) ∧
    (∀ (w : World) (a : Args) (t : Trace),
      RAdds t (pcd_network_stage w a t) isKubectl (inLogsDescribe a.output) ∧
      RAdds t (pcd_port_stage w a t) isKubectl (inLogsDescribe a.output) ∧
      RAdds t (pcd_volume_stage w a t) isKubectl (inLogsDescribe a.output)) := by
  refine ⟨?_, ?_, ?_⟩
  · intro w a n p v
    rfl
  · intro w a nv pv vv nv' pv' vv' h1 h2 h3
    rw [pcd_main_run, pcd_main_run,
      pcd_network_stage_blind w a nv pv vv nv' pv' vv' h1,
      pcd_port_stage_blind w a nv pv vv nv' pv' vv' h2,
      pcd_volume_stage_blind w a nv pv vv nv' pv' vv' h3]
    rfl
  · intro w a t
    exact ⟨pcd_network_stage_RAdds w a t, pcd_port_stage_RAdds w a t,
      pcd_volume_stage_RAdds w a t⟩

/-- Witness for `flag_log_only` at concrete inputs: in the benign world,
the saas run with all three flags set equals the flagless run, and the
pcd run with `--network id1` equals the run with `--network id2`. -/
theorem flag_log_only_witness :
    saas_main_run wGood
        { saGood with
            network := some "netid"
            port := some "p"
            volume := some "v" } = saas_main_run wGood saGood ∧
    pcd_main_run wGood
        { aGood with network := some "id1", port := none, volume := none } =
      pcd_main_run wGood
        { aGood with network := some "id2", port := none, volume := none } := by
  obtain ⟨h1, h2, _⟩ := flag_log_only
  exact ⟨h1 wGood saGood (some "netid") (some "p") (some "v"),
    h2 wGood aGood (some "id1") none none (some "id2") none none
      (by decide) (by decide) (by decide)⟩
